import Mathlib

/-!
Verification development for the Hyper-V management core
(crates/libs/hyperv): VM power-state machine, lifecycle operations,
WMI job-completion protocol, controller find-or-create, two-phase
disk/ISO attach, checkpoint apply/delete, and settings validation.

The WMI gateway (IWbemServices / IWbemClassObject) is an external
collaborator; it is modelled as an environment of response functions,
and every embedded operation returns an `Outcome` together with the
list of gateway calls it issued, so that "issues no request" claims
are statements about the emitted trace.
-/

namespace HyperVSpec

/-! ## vm/state.rs : power states and related enumerations -/

/-- VM enabled state (Msvm_ComputerSystem.EnabledState), from vm/state.rs. -/
inductive VmState where
  | Unknown
  | Running
  | Off
  | ShuttingDown
  | NotApplicable
  | Disabled
  | Paused
  | Suspended
  | Starting
  | Snapshotting
  | Saving
  | Stopping
  | Pausing
  | Resuming
deriving DecidableEq, Repr

/-- `VmState::from_enabled_state` : parse from the WMI EnabledState value. -/
def VmState.from_enabled_state (value : Nat) : VmState :=
  match value with
  | 2 => VmState.Running
  | 3 => VmState.Off
  | 4 => VmState.ShuttingDown
  | 5 => VmState.NotApplicable
  | 6 => VmState.Disabled
  | 32768 => VmState.Paused
  | 32769 => VmState.Suspended
  | 32770 => VmState.Starting
  | 32771 => VmState.Snapshotting
  | 32773 => VmState.Saving
  | 32774 => VmState.Stopping
  | 32776 => VmState.Pausing
  | 32777 => VmState.Resuming
  | _ => VmState.Unknown

/-- `VmState::can_start`. -/
def VmState.can_start (s : VmState) : Bool :=
  match s with
  | VmState.Off | VmState.Suspended | VmState.Paused => true
  | _ => false

/-- `VmState::can_stop`. -/
def VmState.can_stop (s : VmState) : Bool :=
  match s with
  | VmState.Running | VmState.Paused | VmState.Suspended => true
  | _ => false

/-- `VmState::can_pause`. -/
def VmState.can_pause (s : VmState) : Bool :=
  match s with
  | VmState.Running => true
  | _ => false

/-- `VmState::can_save`. -/
def VmState.can_save (s : VmState) : Bool :=
  match s with
  | VmState.Running | VmState.Paused => true
  | _ => false

/-- `VmState::is_transitional`. -/
def VmState.is_transitional (s : VmState) : Bool :=
  match s with
  | VmState.Starting | VmState.Stopping | VmState.Saving | VmState.Pausing
  | VmState.Resuming | VmState.ShuttingDown | VmState.Snapshotting => true
  | _ => false

/-- The numeric EnabledState value of each state (the `repr(u16)` discriminants). -/
def VmState.value (s : VmState) : Nat :=
  match s with
  | VmState.Unknown => 0
  | VmState.Running => 2
  | VmState.Off => 3
  | VmState.ShuttingDown => 4
  | VmState.NotApplicable => 5
  | VmState.Disabled => 6
  | VmState.Paused => 32768
  | VmState.Suspended => 32769
  | VmState.Starting => 32770
  | VmState.Snapshotting => 32771
  | VmState.Saving => 32773
  | VmState.Stopping => 32774
  | VmState.Pausing => 32776
  | VmState.Resuming => 32777

/-- error.rs `VmStateError` : state snapshot carried inside invalid-state errors. -/
inductive VmStateError where
  | Unknown
  | Running
  | Off
  | ShuttingDown
  | Paused
  | Suspended
  | Starting
  | Stopping
  | Other (value : Nat)
deriving DecidableEq, Repr

/-- `VmState::to_error` : convert to `VmStateError` for error reporting. -/
def VmState.to_error (s : VmState) : VmStateError :=
  match s with
  | VmState.Unknown => VmStateError.Unknown
  | VmState.Running => VmStateError.Running
  | VmState.Off => VmStateError.Off
  | VmState.ShuttingDown => VmStateError.ShuttingDown
  | VmState.Paused => VmStateError.Paused
  | VmState.Suspended => VmStateError.Suspended
  | VmState.Starting => VmStateError.Starting
  | VmState.Stopping => VmStateError.Stopping
  | _ => VmStateError.Other s.value

/-- VM generation (Gen1 = BIOS, Gen2 = UEFI), from vm/state.rs. -/
inductive Generation where
  | Gen1
  | Gen2
deriving DecidableEq, Repr

/-- Requested state for VM state change operations (`repr(u16)` values). -/
inductive RequestedState where
  | Running
  | Off
  | Paused
  | Saved
  | Reset
deriving DecidableEq, Repr

/-- Numeric value of a `RequestedState` (its `repr(u16)` discriminant). -/
def RequestedState.value (r : RequestedState) : Nat :=
  match r with
  | RequestedState.Running => 2
  | RequestedState.Off => 3
  | RequestedState.Paused => 32768
  | RequestedState.Saved => 32769
  | RequestedState.Reset => 11

/-- The `{:?}` (Debug) rendering of a `RequestedState`, used in error messages. -/
def RequestedState.debug_str (r : RequestedState) : String :=
  match r with
  | RequestedState.Running => "Running"
  | RequestedState.Off => "Off"
  | RequestedState.Paused => "Paused"
  | RequestedState.Saved => "Saved"
  | RequestedState.Reset => "Reset"

/-- Shutdown type for `VirtualMachine::stop`. -/
inductive ShutdownType where
  | Graceful
  | Force
  | GracefulWithForce
deriving DecidableEq, Repr

/-! ## error.rs : the error taxonomy (WMI `source` payloads elided) -/

/-- The library's error enum.  Variants carrying a `windows_core::Error`
source keep only the structured fields the code itself supplies. -/
inductive Error where
  | WmiConnection
  | WmiQuery (query : String)
  | WmiMethod (cls : String) (mthd : String)
  | VmNotFound (name : String)
  | SwitchNotFound (name : String)
  | VhdNotFound (path : String)
  | InvalidState (vm_name : String) (current : VmStateError) (operation : String)
  | Validation (field : String) (message : String)
  | MissingRequired (field : String)
  | OperationFailed (operation : String) (return_value : Nat) (message : String)
  | TypeConversion (property : String) (expected : String)
  | JobFailed (operation : String) (error_code : Nat) (error_description : String)
deriving DecidableEq, Repr

/-! ## vm/settings.rs : VmSettings and its validation -/

/-- Reserved characters rejected in VM names by `VmSettings::validate`. -/
def is_reserved_name_char (c : Char) : Bool :=
  c == '\\' || c == '/' || c == ':' || c == '*' || c == '?' || c == '"' ||
  c == '<' || c == '>' || c == '|'

/-- `VmSettings` (vm/settings.rs).  Numeric fields are Nat images of the
u64/u32 source fields; only comparisons are performed on them. -/
structure VmSettings where
  name : String
  generation : Generation
  memory_mb : Nat
  processor_count : Nat
  config_path : Option String
  snapshot_path : Option String
  smart_paging_path : Option String
  dynamic_memory : Bool
  dynamic_memory_min_mb : Option Nat
  dynamic_memory_max_mb : Option Nat
  memory_buffer_percentage : Option Nat
  secure_boot : Bool
  secure_boot_template : Option String
  tpm_enabled : Bool
  nested_virtualization : Bool
deriving DecidableEq, Repr

/-- Final block of `VmSettings::validate`: Gen1-specific checks. -/
def VmSettings.validate_gen1 (s : VmSettings) : Except Error Unit :=
  if s.generation = Generation.Gen1 && s.secure_boot then
    Except.error (Error.Validation "secure_boot"
      "Secure Boot is only available for Generation 2 VMs")
  else
    Except.ok ()

/-- Memory-buffer check of `VmSettings::validate`, continuing with the
Gen1 checks (the statements that follow it in the source). -/
def VmSettings.validate_buffer (s : VmSettings) : Except Error Unit :=
  match s.memory_buffer_percentage with
  | some buffer =>
    if buffer > 100 then
      Except.error (Error.Validation "memory_buffer_percentage"
        "Memory buffer cannot exceed 100%")
    else s.validate_gen1
  | none => s.validate_gen1

/-- min ≤ max check of `VmSettings::validate`, continuing with the rest. -/
def VmSettings.validate_min_max (s : VmSettings) : Except Error Unit :=
  match s.dynamic_memory_min_mb, s.dynamic_memory_max_mb with
  | some min, some max =>
    if min > max then
      Except.error (Error.Validation "dynamic_memory"
        "Minimum memory cannot exceed maximum memory")
    else s.validate_buffer
  | _, _ => s.validate_buffer

/-- Dynamic-memory maximum check of `VmSettings::validate`. -/
def VmSettings.validate_dyn_max (s : VmSettings) : Except Error Unit :=
  match s.dynamic_memory_max_mb with
  | some max =>
    if max < s.memory_mb then
      Except.error (Error.Validation "dynamic_memory_max_mb"
        "Maximum memory cannot be less than startup memory")
    else s.validate_min_max
  | none => s.validate_min_max

/-- Dynamic-memory minimum check of `VmSettings::validate`. -/
def VmSettings.validate_dyn_min (s : VmSettings) : Except Error Unit :=
  match s.dynamic_memory_min_mb with
  | some min =>
    if min < 32 then
      Except.error (Error.Validation "dynamic_memory_min_mb"
        "Minimum dynamic memory must be at least 32 MB")
    else if min > s.memory_mb then
      Except.error (Error.Validation "dynamic_memory_min_mb"
        "Minimum memory cannot exceed startup memory")
    else s.validate_dyn_max
  | none => s.validate_dyn_max

/-- `VmSettings::validate` — the checks in source order (early-return flow
rendered as a continuation chain), with the source's fields and messages. -/
def VmSettings.validate (s : VmSettings) : Except Error Unit :=
  if s.name = "" then
    Except.error (Error.Validation "name" "VM name cannot be empty")
  else if s.name.utf8ByteSize > 100 then
    Except.error (Error.Validation "name" "VM name cannot exceed 100 characters")
  else if s.name.data.any is_reserved_name_char then
    Except.error (Error.Validation "name" "VM name contains invalid characters")
  else if s.memory_mb < 32 then
    Except.error (Error.Validation "memory_mb" "Memory must be at least 32 MB")
  else if s.memory_mb > 12582912 then
    Except.error (Error.Validation "memory_mb" "Memory cannot exceed 12 TB")
  else if s.processor_count < 1 then
    Except.error (Error.Validation "processor_count" "Processor count must be at least 1")
  else if s.processor_count > 240 then
    Except.error (Error.Validation "processor_count" "Processor count cannot exceed 240")
  else if s.dynamic_memory then
    s.validate_dyn_min
  else
    s.validate_gen1

/-! ## The gateway model

The WMI connection (wmi/connection.rs) is the external collaborator.  A
fetched document is a bundle of typed property readers (`get_string_prop`
returns `Ok(None)` for an absent/null property, `Err(TypeConversion ..)`
for a wrongly-typed one); the connection is a bundle of response
functions.  `get_object` and `query` take an extra occurrence index so
that repeated calls (job polling, the re-query in find-or-create) may
observe different documents.  Every connection-level call is logged to a
trace, so that claims about requests never being issued are statements
about the trace. -/

/-- A WMI document as seen through the `WbemClassObjectExt` accessors. -/
structure WmiObject where
  getStr : String → Except Error (Option String)
  getNat : String → Except Error (Option Nat)
  putRes : Except Error Unit
  text : Except Error String

/-- `WbemClassObjectExt::get_string_prop_required`. -/
def WmiObject.get_string_prop_required (o : WmiObject) (name : String) :
    Except Error String :=
  match o.getStr name with
  | Except.error e => Except.error e
  | Except.ok (some s) => Except.ok s
  | Except.ok none => Except.error (Error.MissingRequired name)

/-- `WbemClassObjectExt::get_path` = `get_string_prop_required("__PATH")`. -/
def WmiObject.get_path (o : WmiObject) : Except Error String :=
  o.get_string_prop_required "__PATH"

/-- One connection-level gateway call (the logged trace element). -/
inductive GCall where
  | queryFirst (q : String)
  | query (q : String)
  | getObject (path : String)
  | spawnInstance (cls : String)
  | getMethodParams (cls mthd : String)
  | execMethod (path mthd : String)
deriving DecidableEq, Repr

/-- Result of running an embedded operation: success, a returned error, or
divergence (the job poll loop never reaching a terminal state). -/
inductive Outcome (α : Type) where
  | ok (a : α)
  | error (e : Error)
  | diverge
deriving DecidableEq, Repr

/-- A completed computation: its outcome plus the gateway calls it issued. -/
def GC (α : Type) : Type := Outcome α × List GCall

/-- The outcome component. -/
def GC.res {α : Type} (m : GC α) : Outcome α := m.1

/-- The trace component. -/
def GC.trace {α : Type} (m : GC α) : List GCall := m.2

/-- Pure computation: no calls issued. -/
def GC.pure {α : Type} (a : α) : GC α := (Outcome.ok a, [])

/-- Sequencing: Rust's `?` propagation with trace concatenation. -/
def GC.bind {α β : Type} (m : GC α) (f : α → GC β) : GC β :=
  match m with
  | (Outcome.ok a, t) => ((f a).1, t ++ (f a).2)
  | (Outcome.error e, t) => (Outcome.error e, t)
  | (Outcome.diverge, t) => (Outcome.diverge, t)

/-- Fail with an error, no calls issued. -/
def GC.fail {α : Type} (e : Error) : GC α := (Outcome.error e, [])

/-- Lift a plain `Result` (a local, non-gateway step) into `GC`. -/
def GC.lift {α : Type} (r : Except Error α) : GC α :=
  match r with
  | Except.ok a => (Outcome.ok a, [])
  | Except.error e => (Outcome.error e, [])

/-- The gateway environment: the collaborator's responses to each call.
`getObject`/`query`/`execMethod` receive an occurrence index chosen at
the call site, so distinct invocations may be answered differently. -/
structure Env where
  queryFirst : String → Except Error (Option WmiObject)
  query : String → Nat → Except Error (List WmiObject)
  getObject : String → Nat → Except Error WmiObject
  spawnInstance : String → Except Error WmiObject
  getMethodParams : String → String → Except Error WmiObject
  execMethod : String → String → Nat → Except Error WmiObject
  fuel : Nat

/-- Issue a call: log it and lift the environment's response. -/
def logCall {α : Type} (c : GCall) (r : Except Error α) : GC α :=
  match r with
  | Except.ok a => (Outcome.ok a, [c])
  | Except.error e => (Outcome.error e, [c])

/-- `WmiConnection::query_first`. -/
def Env.pQueryFirst (env : Env) (q : String) : GC (Option WmiObject) :=
  logCall (GCall.queryFirst q) (env.queryFirst q)

/-- `WmiConnection::query` (occurrence-indexed). -/
def Env.pQuery (env : Env) (q : String) (k : Nat) : GC (List WmiObject) :=
  logCall (GCall.query q) (env.query q k)

/-- `WmiConnection::get_object` (occurrence-indexed). -/
def Env.pGetObject (env : Env) (path : String) (k : Nat) : GC WmiObject :=
  logCall (GCall.getObject path) (env.getObject path k)

/-- `WmiConnection::spawn_instance`. -/
def Env.pSpawnInstance (env : Env) (cls : String) : GC WmiObject :=
  logCall (GCall.spawnInstance cls) (env.spawnInstance cls)

/-- `WmiConnection::get_method_params`. -/
def Env.pGetMethodParams (env : Env) (cls mthd : String) : GC WmiObject :=
  logCall (GCall.getMethodParams cls mthd) (env.getMethodParams cls mthd)

/-- `WmiConnection::exec_method` (occurrence-indexed). -/
def Env.pExecMethod (env : Env) (path mthd : String) (k : Nat) : GC WmiObject :=
  logCall (GCall.execMethod path mthd) (env.execMethod path mthd k)

/-! ## vm/computer_system.rs : the VM handle and lifecycle operations -/

/-- `VirtualMachine` (the WMI connection handle is carried separately as
the `Env` argument of each operation). -/
structure VirtualMachine where
  name : String
  id : String
  state : VmState
  generation : Generation
  path : String
deriving DecidableEq, Repr

/-- `VirtualMachine::refresh` : re-fetch the document and re-parse the
cached state.  Returns the updated handle. -/
def VirtualMachine.refresh (env : Env) (vm : VirtualMachine) :
    GC VirtualMachine :=
  GC.bind (env.pGetObject vm.path 0) fun obj =>
  GC.bind (GC.lift (obj.getNat "EnabledState")) fun es =>
  GC.pure { vm with state := VmState.from_enabled_state (es.getD 0) }

/-- The body of `VirtualMachine::wait_for_job`, unrolled with fuel;
`i` is the poll-iteration index handed to `get_object`.  The source's
match arms `2 | 3 | 4` and `_` both sleep and re-poll, so both are the
final recursive branch here. -/
def VirtualMachine.wait_for_job_from (env : Env) (job_path : String) :
    Nat → Nat → GC Unit
  | _, 0 => (Outcome.diverge, [])
  | i, fuel + 1 =>
    GC.bind (env.pGetObject job_path i) fun job =>
    GC.bind (GC.lift (job.getNat "JobState")) fun js =>
    let job_state := js.getD 0
    if job_state = 7 then GC.pure ()
    else if job_state = 8 ∨ job_state = 9 ∨ job_state = 10 ∨ job_state = 11 then
      GC.bind (GC.lift (job.getNat "ErrorCode")) fun ec =>
      GC.bind (GC.lift (job.getStr "ErrorDescription")) fun ed =>
      GC.fail (Error.JobFailed "Job" (ec.getD 0) (ed.getD ""))
    else
      VirtualMachine.wait_for_job_from env job_path (i + 1) fuel

/-- `VirtualMachine::wait_for_job`. -/
def VirtualMachine.wait_for_job (env : Env) (job_path : String) : GC Unit :=
  VirtualMachine.wait_for_job_from env job_path 0 env.fuel

/-- `VirtualMachine::request_state_change`. -/
def VirtualMachine.request_state_change (env : Env) (vm : VirtualMachine)
    (requested : RequestedState) : GC Unit :=
  GC.bind (env.pGetMethodParams "Msvm_ComputerSystem" "RequestStateChange")
    fun in_params =>
  GC.bind (GC.lift in_params.putRes) fun _ =>
  GC.bind (env.pExecMethod vm.path "RequestStateChange" 0) fun out_params =>
  GC.bind (GC.lift (out_params.getNat "ReturnValue")) fun rv =>
  let return_value := rv.getD 0
  if return_value = 0 then GC.pure ()
  else if return_value = 4096 then
    -- get_string_prop("Job").ok().flatten().unwrap_or_default()
    let job_path :=
      match out_params.getStr "Job" with
      | Except.ok (some s) => s
      | _ => ""
    if job_path ≠ "" then VirtualMachine.wait_for_job env job_path
    else GC.pure ()
  else
    GC.fail (Error.OperationFailed "RequestStateChange" return_value
      ("State change to " ++ requested.debug_str ++ " failed"))

/-- `VirtualMachine::graceful_shutdown`. -/
def VirtualMachine.graceful_shutdown (env : Env) (vm : VirtualMachine) :
    GC Unit :=
  GC.bind (env.pQueryFirst
      ("SELECT * FROM Msvm_ShutdownComponent WHERE SystemName='" ++ vm.id ++ "'"))
    fun sc =>
  match sc with
  | none =>
    GC.fail (Error.OperationFailed "GracefulShutdown" 0
      "Shutdown integration service not available")
  | some shutdown_component =>
    GC.bind (GC.lift shutdown_component.get_path) fun component_path =>
    GC.bind (env.pGetMethodParams "Msvm_ShutdownComponent" "InitiateShutdown")
      fun in_params =>
    GC.bind (GC.lift in_params.putRes) fun _ =>
    GC.bind (GC.lift in_params.putRes) fun _ =>
    GC.bind (env.pExecMethod component_path "InitiateShutdown" 0) fun out_params =>
    GC.bind (GC.lift (out_params.getNat "ReturnValue")) fun rv =>
    let return_value := rv.getD 0
    if return_value = 0 then GC.pure ()
    else
      GC.fail (Error.OperationFailed "InitiateShutdown" return_value
        "Graceful shutdown failed")

/-- `VirtualMachine::start`. -/
def VirtualMachine.start (env : Env) (vm : VirtualMachine) :
    GC VirtualMachine :=
  if ¬ vm.state.can_start then
    GC.fail (Error.InvalidState vm.name vm.state.to_error "start")
  else
    GC.bind (VirtualMachine.request_state_change env vm RequestedState.Running)
      fun _ => vm.refresh env

/-- `VirtualMachine::stop`. -/
def VirtualMachine.stop (env : Env) (vm : VirtualMachine)
    (shutdown_type : ShutdownType) : GC VirtualMachine :=
  if ¬ vm.state.can_stop then
    GC.fail (Error.InvalidState vm.name vm.state.to_error "stop")
  else
    GC.bind
      (match shutdown_type with
       | ShutdownType.Force =>
         VirtualMachine.request_state_change env vm RequestedState.Off
       | ShutdownType.Graceful =>
         VirtualMachine.graceful_shutdown env vm
       | ShutdownType.GracefulWithForce =>
         -- if self.graceful_shutdown().is_err() { self.request_state_change(Off)?; }
         match VirtualMachine.graceful_shutdown env vm with
         | (Outcome.ok _, t) => (Outcome.ok (), t)
         | (Outcome.error _, t) =>
           ((VirtualMachine.request_state_change env vm RequestedState.Off).1,
            t ++ (VirtualMachine.request_state_change env vm RequestedState.Off).2)
         | (Outcome.diverge, t) => (Outcome.diverge, t))
      fun _ => vm.refresh env

/-- `VirtualMachine::pause`. -/
def VirtualMachine.pause (env : Env) (vm : VirtualMachine) :
    GC VirtualMachine :=
  if ¬ vm.state.can_pause then
    GC.fail (Error.InvalidState vm.name vm.state.to_error "pause")
  else
    GC.bind (VirtualMachine.request_state_change env vm RequestedState.Paused)
      fun _ => vm.refresh env

/-- `VirtualMachine::resume`. -/
def VirtualMachine.resume (env : Env) (vm : VirtualMachine) :
    GC VirtualMachine :=
  if vm.state ≠ VmState.Paused then
    GC.fail (Error.InvalidState vm.name vm.state.to_error "resume")
  else
    GC.bind (VirtualMachine.request_state_change env vm RequestedState.Running)
      fun _ => vm.refresh env

/-- `VirtualMachine::save`. -/
def VirtualMachine.save (env : Env) (vm : VirtualMachine) :
    GC VirtualMachine :=
  if ¬ vm.state.can_save then
    GC.fail (Error.InvalidState vm.name vm.state.to_error "save")
  else
    GC.bind (VirtualMachine.request_state_change env vm RequestedState.Saved)
      fun _ => vm.refresh env

/-- `VirtualMachine::reset`. -/
def VirtualMachine.reset (env : Env) (vm : VirtualMachine) :
    GC VirtualMachine :=
  if vm.state ≠ VmState.Running then
    GC.fail (Error.InvalidState vm.name vm.state.to_error "reset")
  else
    GC.bind (VirtualMachine.request_state_change env vm RequestedState.Reset)
      fun _ => vm.refresh env

/-! ## storage/controller.rs : controller types and attachment settings -/

/-- Storage controller type. -/
inductive ControllerType where
  | Ide
  | Scsi
deriving DecidableEq, Repr

/-- `ControllerType::resource_subtype`. -/
def ControllerType.resource_subtype (t : ControllerType) : String :=
  match t with
  | ControllerType.Ide => "Microsoft:Hyper-V:Emulated IDE Controller"
  | ControllerType.Scsi => "Microsoft:Hyper-V:Synthetic SCSI Controller"

/-- The `{:?}` (Debug) rendering of a `ControllerType`. -/
def ControllerType.debug_str (t : ControllerType) : String :=
  match t with
  | ControllerType.Ide => "Ide"
  | ControllerType.Scsi => "Scsi"

/-- `str::contains` on substrings: `needle` occurs contiguously in
`haystack`. -/
def list_has_infix (pat : List Char) : List Char → Bool
  | [] => pat.isEmpty
  | c :: rest => pat.isPrefixOf (c :: rest) || list_has_infix pat rest

/-- `haystack.contains(needle)` for strings. -/
def str_contains (haystack needle : String) : Bool :=
  list_has_infix needle.data haystack.data

/-- Decimal digit accumulation; `none` on any non-digit. -/
def digits_to_nat (cs : List Char) : Option Nat :=
  cs.foldl
    (fun acc c =>
      match acc with
      | none => none
      | some n => if c.isDigit then some (n * 10 + (c.toNat - 48)) else none)
    (some 0)

/-- `s.parse::<u32>().unwrap_or(0)` : an optional leading `+`, then at
least one digit, value within u32 range; anything else parses to the
default 0. -/
def parse_u32_or_zero (s : String) : Nat :=
  let cs :=
    match s.data with
    | '+' :: rest => rest
    | cs => cs
  match (if cs.isEmpty then none else digits_to_nat cs) with
  | some n => if n ≤ 4294967295 then n else 0
  | none => 0

/-- `DiskAttachment` (storage/controller.rs). -/
structure DiskAttachment where
  vhd_path : String
  controller_type : ControllerType
  controller_number : Nat
  controller_location : Nat
deriving DecidableEq, Repr

/-- `DiskAttachment::validate`. -/
def DiskAttachment.validate (a : DiskAttachment) : Except Error Unit :=
  if a.vhd_path = "" then
    Except.error (Error.Validation "vhd_path" "VHD path cannot be empty")
  else
    match a.controller_type with
    | ControllerType.Ide =>
      if a.controller_number > 1 then
        Except.error (Error.Validation "controller_number"
          "IDE controller number must be 0 or 1")
      else if a.controller_location > 1 then
        Except.error (Error.Validation "controller_location"
          "IDE controller location must be 0 or 1")
      else Except.ok ()
    | ControllerType.Scsi =>
      if a.controller_number > 3 then
        Except.error (Error.Validation "controller_number"
          "SCSI controller number must be 0-3")
      else if a.controller_location > 63 then
        Except.error (Error.Validation "controller_location"
          "SCSI controller location must be 0-63")
      else Except.ok ()

/-- `IsoAttachment` (storage/controller.rs). -/
structure IsoAttachment where
  iso_path : String
  controller_type : ControllerType
  controller_number : Nat
  controller_location : Nat
deriving DecidableEq, Repr

/-- `IsoAttachment::validate`. -/
def IsoAttachment.validate (a : IsoAttachment) : Except Error Unit :=
  if a.iso_path = "" then
    Except.error (Error.Validation "iso_path" "ISO path cannot be empty")
  else if ¬ (a.iso_path.toLower.endsWith ".iso") then
    Except.error (Error.Validation "iso_path" "ISO path must end with .iso")
  else
    match a.controller_type with
    | ControllerType.Ide =>
      if a.controller_number > 1 then
        Except.error (Error.Validation "controller_number"
          "IDE controller number must be 0 or 1")
      else if a.controller_location > 1 then
        Except.error (Error.Validation "controller_location"
          "IDE controller location must be 0 or 1")
      else Except.ok ()
    | ControllerType.Scsi =>
      if a.controller_number > 3 then
        Except.error (Error.Validation "controller_number"
          "SCSI controller number must be 0-3")
      else if a.controller_location > 63 then
        Except.error (Error.Validation "controller_location"
          "SCSI controller location must be 0-63")
      else Except.ok ()

/-! ## checkpoint/mod.rs : the checkpoint record -/

/-- `Checkpoint`. -/
structure Checkpoint where
  name : String
  id : String
  vm_id : String
  parent_id : Option String
  creation_time : String
  notes : Option String
  path : String
deriving DecidableEq, Repr

/-! ## hyperv.rs : the HyperV controller -/

/-- The VM → settings-document ASSOCIATORS query built (twice, verbatim)
in hyperv.rs and computer_system.rs. -/
def settings_query (vm_id : String) : String :=
  "ASSOCIATORS OF \x7bMsvm_ComputerSystem.CreationClassName='Msvm_ComputerSystem',Name='"
    ++ vm_id ++
    "'\x7d WHERE AssocClass=Msvm_SettingsDefineState ResultClass=Msvm_VirtualSystemSettingData"

/-- The settings-document → resource-list ASSOCIATORS query of
find_or_create_controller / find_disk_drive / find_dvd_drive. -/
def resources_query (settings_path : String) : String :=
  "ASSOCIATORS OF \x7b" ++ settings_path ++
    "\x7d WHERE ResultClass=Msvm_ResourceAllocationSettingData"

/-- `HyperV::get_management_service`. -/
def HyperV.get_management_service (env : Env) : GC WmiObject :=
  GC.bind (env.pQueryFirst "SELECT * FROM Msvm_VirtualSystemManagementService")
    fun m =>
  match m with
  | some mgmt => GC.pure mgmt
  | none => GC.fail (Error.WmiQuery "Msvm_VirtualSystemManagementService")

/-- `HyperV::get_vm_settings`. -/
def HyperV.get_vm_settings (env : Env) (vm : VirtualMachine) : GC WmiObject :=
  GC.bind (env.pQueryFirst (settings_query vm.id)) fun s =>
  match s with
  | some settings => GC.pure settings
  | none => GC.fail (Error.VmNotFound vm.name)

/-- The body of `HyperV::wait_for_job`, unrolled with fuel; `i` is the
poll-iteration index handed to `get_object`. -/
def HyperV.wait_for_job_from (env : Env) (job_path operation : String) :
    Nat → Nat → GC Unit
  | _, 0 => (Outcome.diverge, [])
  | i, fuel + 1 =>
    GC.bind (env.pGetObject job_path i) fun job =>
    GC.bind (GC.lift (job.getNat "JobState")) fun js =>
    let job_state := js.getD 0
    if job_state = 7 then GC.pure ()
    else if job_state = 8 ∨ job_state = 9 ∨ job_state = 10 ∨ job_state = 11 then
      GC.bind (GC.lift (job.getNat "ErrorCode")) fun ec =>
      GC.bind (GC.lift (job.getStr "ErrorDescription")) fun ed =>
      GC.fail (Error.JobFailed operation (ec.getD 0) (ed.getD ""))
    else
      HyperV.wait_for_job_from env job_path operation (i + 1) fuel

/-- `HyperV::wait_for_job`. -/
def HyperV.wait_for_job (env : Env) (job_path operation : String) : GC Unit :=
  HyperV.wait_for_job_from env job_path operation 0 env.fuel

/-- `HyperV::handle_job_result`. -/
def HyperV.handle_job_result (env : Env) (out_params : WmiObject)
    (operation : String) : GC Unit :=
  GC.bind (GC.lift (out_params.getNat "ReturnValue")) fun rv =>
  let return_value := rv.getD 0
  if return_value = 0 then GC.pure ()
  else if return_value = 4096 then
    GC.bind (GC.lift (out_params.getStr "Job")) fun job =>
    match job with
    | some job_path => HyperV.wait_for_job env job_path operation
    | none => GC.pure ()
  else
    GC.fail (Error.OperationFailed operation return_value
      (operation ++ " failed"))

/-- `HyperV::delete_vm`. -/
def HyperV.delete_vm (env : Env) (vm : VirtualMachine) : GC Unit :=
  if vm.state ≠ VmState.Off then
    GC.fail (Error.InvalidState vm.name vm.state.to_error "delete")
  else
    GC.bind (HyperV.get_management_service env) fun mgmt_service =>
    GC.bind (GC.lift mgmt_service.get_path) fun mgmt_path =>
    GC.bind (env.pQueryFirst (settings_query vm.id)) fun s =>
    match s with
    | none => GC.fail (Error.VmNotFound vm.name)
    | some _ =>
      GC.bind (env.pGetMethodParams "Msvm_VirtualSystemManagementService"
          "DestroySystem") fun in_params =>
      GC.bind (GC.lift in_params.putRes) fun _ =>
      GC.bind (env.pExecMethod mgmt_path "DestroySystem" 0) fun out_params =>
      HyperV.handle_job_result env out_params "DestroySystem"

/-- `HyperV::add_scsi_controller`. -/
def HyperV.add_scsi_controller (env : Env) (vm : VirtualMachine) : GC Unit :=
  GC.bind (HyperV.get_vm_settings env vm) fun vm_settings =>
  GC.bind (GC.lift vm_settings.get_path) fun _settings_path =>
  GC.bind (env.pSpawnInstance "Msvm_ResourceAllocationSettingData")
    fun controller =>
  GC.bind (GC.lift controller.putRes) fun _ =>
  GC.bind (GC.lift controller.putRes) fun _ =>
  GC.bind (GC.lift controller.text) fun _ =>
  GC.bind (HyperV.get_management_service env) fun mgmt_service =>
  GC.bind (GC.lift mgmt_service.get_path) fun mgmt_path =>
  GC.bind (env.pGetMethodParams "Msvm_VirtualSystemManagementService"
      "AddResourceSettings") fun in_params =>
  GC.bind (GC.lift in_params.putRes) fun _ =>
  GC.bind (GC.lift in_params.putRes) fun _ =>
  GC.bind (env.pExecMethod mgmt_path "AddResourceSettings" 0) fun out_params =>
  HyperV.handle_job_result env out_params "AddResourceSettings"

/-- The first scan loop of `find_or_create_controller`: match on
ResourceSubType (substring) and on Address parsed as u32. -/
def scan_controllers_with_address (resource_subtype : String)
    (controller_number : Nat) : List WmiObject → GC (Option WmiObject)
  | [] => GC.pure none
  | controller :: rest =>
    GC.bind (GC.lift (controller.getStr "ResourceSubType")) fun st =>
    match st with
    | some subtype =>
      if str_contains subtype resource_subtype then
        GC.bind (GC.lift (controller.getStr "Address")) fun addr =>
        match addr with
        | some a =>
          if parse_u32_or_zero a = controller_number then
            GC.pure (some controller)
          else scan_controllers_with_address resource_subtype controller_number rest
        | none => scan_controllers_with_address resource_subtype controller_number rest
      else scan_controllers_with_address resource_subtype controller_number rest
    | none => scan_controllers_with_address resource_subtype controller_number rest

/-- The re-scan loop of `find_or_create_controller` after creation:
matches on ResourceSubType only, never reading Address. -/
def scan_controllers_subtype_only (resource_subtype : String) :
    List WmiObject → GC (Option WmiObject)
  | [] => GC.pure none
  | controller :: rest =>
    GC.bind (GC.lift (controller.getStr "ResourceSubType")) fun st =>
    match st with
    | some subtype =>
      if str_contains subtype resource_subtype then GC.pure (some controller)
      else scan_controllers_subtype_only resource_subtype rest
    | none => scan_controllers_subtype_only resource_subtype rest

/-- `HyperV::find_or_create_controller`. -/
def HyperV.find_or_create_controller (env : Env) (vm : VirtualMachine)
    (controller_type : ControllerType) (controller_number : Nat) :
    GC WmiObject :=
  GC.bind (HyperV.get_vm_settings env vm) fun vm_settings =>
  GC.bind (GC.lift vm_settings.get_path) fun settings_path =>
  let resource_subtype := controller_type.resource_subtype
  let query := resources_query settings_path
  GC.bind (env.pQuery query 0) fun controllers =>
  GC.bind (scan_controllers_with_address resource_subtype controller_number
      controllers) fun found =>
  match found with
  | some controller => GC.pure controller
  | none =>
    let not_found : GC WmiObject :=
      GC.fail (Error.OperationFailed "FindController" 0
        ("Controller " ++ controller_type.debug_str ++ " #"
          ++ toString controller_number ++ " not found"))
    if controller_type = ControllerType.Scsi then
      GC.bind (HyperV.add_scsi_controller env vm) fun _ =>
      GC.bind (env.pQuery query 1) fun controllers2 =>
      GC.bind (scan_controllers_subtype_only resource_subtype controllers2)
        fun found2 =>
      match found2 with
      | some controller => GC.pure controller
      | none => not_found
    else not_found

/-- `HyperV::create_disk_drive` : spawn and populate a synthetic disk
drive resource (local document construction; the spawn is the only
gateway call). -/
def HyperV.create_disk_drive (env : Env) (_controller_path : String)
    (_location : Nat) : GC WmiObject :=
  GC.bind (env.pSpawnInstance "Msvm_ResourceAllocationSettingData") fun drive =>
  GC.bind (GC.lift drive.putRes) fun _ =>
  GC.bind (GC.lift drive.putRes) fun _ =>
  GC.bind (GC.lift drive.putRes) fun _ =>
  GC.bind (GC.lift drive.putRes) fun _ =>
  GC.pure drive

/-- `HyperV::create_dvd_drive`. -/
def HyperV.create_dvd_drive (env : Env) (_controller_path : String)
    (_location : Nat) : GC WmiObject :=
  GC.bind (env.pSpawnInstance "Msvm_ResourceAllocationSettingData") fun drive =>
  GC.bind (GC.lift drive.putRes) fun _ =>
  GC.bind (GC.lift drive.putRes) fun _ =>
  GC.bind (GC.lift drive.putRes) fun _ =>
  GC.bind (GC.lift drive.putRes) fun _ =>
  GC.pure drive

/-- The scan loop of `find_disk_drive`: subtype contains "Disk Drive",
Parent equals the controller path, AddressOnParent equals the location. -/
def scan_drives (drive_kind : String) (controller_path : String)
    (location : Nat) : List WmiObject → GC (Option WmiObject)
  | [] => GC.pure none
  | resource :: rest =>
    GC.bind (GC.lift (resource.getStr "ResourceSubType")) fun st =>
    match st with
    | some subtype =>
      if str_contains subtype drive_kind then
        GC.bind (GC.lift (resource.getStr "Parent")) fun parent =>
        match parent with
        | some p =>
          if p = controller_path then
            GC.bind (GC.lift (resource.getNat "AddressOnParent")) fun addr =>
            match addr with
            | some a =>
              if a = location then GC.pure (some resource)
              else scan_drives drive_kind controller_path location rest
            | none => scan_drives drive_kind controller_path location rest
          else scan_drives drive_kind controller_path location rest
        | none => scan_drives drive_kind controller_path location rest
      else scan_drives drive_kind controller_path location rest
    | none => scan_drives drive_kind controller_path location rest

/-- `HyperV::find_disk_drive`. -/
def HyperV.find_disk_drive (env : Env) (vm : VirtualMachine)
    (controller_path : String) (location : Nat) : GC WmiObject :=
  GC.bind (HyperV.get_vm_settings env vm) fun vm_settings =>
  GC.bind (GC.lift vm_settings.get_path) fun settings_path =>
  GC.bind (env.pQuery (resources_query settings_path) 2) fun resources =>
  GC.bind (scan_drives "Disk Drive" controller_path location resources)
    fun found =>
  match found with
  | some resource => GC.pure resource
  | none =>
    GC.fail (Error.OperationFailed "FindDiskDrive" 0
      ("Disk drive at location " ++ toString location ++ " not found"))

/-- `HyperV::find_dvd_drive`. -/
def HyperV.find_dvd_drive (env : Env) (vm : VirtualMachine)
    (controller_path : String) (location : Nat) : GC WmiObject :=
  GC.bind (HyperV.get_vm_settings env vm) fun vm_settings =>
  GC.bind (GC.lift vm_settings.get_path) fun settings_path =>
  GC.bind (env.pQuery (resources_query settings_path) 2) fun resources =>
  GC.bind (scan_drives "DVD Drive" controller_path location resources)
    fun found =>
  match found with
  | some resource => GC.pure resource
  | none =>
    GC.fail (Error.OperationFailed "FindDvdDrive" 0
      ("DVD drive at location " ++ toString location ++ " not found"))

/-- Drive-add phase of `HyperV::attach_vhd` (everything up to and
including the first `handle_job_result`): validate, resolve settings and
controller, spawn the drive, add it, wait.  Returns the context the
storage-allocation phase needs. -/
def HyperV.attach_vhd_drive_phase (env : Env) (vm : VirtualMachine)
    (attachment : DiskAttachment) : GC (String × String × String) :=
  GC.bind (GC.lift attachment.validate) fun _ =>
  GC.bind (HyperV.get_vm_settings env vm) fun settings =>
  GC.bind (GC.lift settings.get_path) fun settings_path =>
  GC.bind (HyperV.find_or_create_controller env vm attachment.controller_type
      attachment.controller_number) fun controller =>
  GC.bind (GC.lift controller.get_path) fun controller_path =>
  GC.bind (HyperV.create_disk_drive env controller_path
      attachment.controller_location) fun drive =>
  GC.bind (HyperV.get_management_service env) fun mgmt_service =>
  GC.bind (GC.lift mgmt_service.get_path) fun mgmt_path =>
  GC.bind (GC.lift drive.text) fun _drive_text =>
  GC.bind (env.pGetMethodParams "Msvm_VirtualSystemManagementService"
      "AddResourceSettings") fun in_params =>
  GC.bind (GC.lift in_params.putRes) fun _ =>
  GC.bind (GC.lift in_params.putRes) fun _ =>
  GC.bind (env.pExecMethod mgmt_path "AddResourceSettings" 0) fun out_params =>
  GC.bind (HyperV.handle_job_result env out_params "AddResourceSettings")
    fun _ =>
  GC.pure (settings_path, controller_path, mgmt_path)

/-- Storage-allocation phase of `HyperV::attach_vhd`: re-find the drive,
spawn the `Msvm_StorageAllocationSettingData` resource bound to the VHD
path, add it, wait. -/
def HyperV.attach_vhd_alloc_phase (env : Env) (vm : VirtualMachine)
    (attachment : DiskAttachment) (ctx : String × String × String) : GC Unit :=
  GC.bind (HyperV.find_disk_drive env vm ctx.2.1 attachment.controller_location)
    fun new_drive =>
  GC.bind (GC.lift new_drive.get_path) fun _new_drive_path =>
  GC.bind (env.pSpawnInstance "Msvm_StorageAllocationSettingData")
    fun vhd_resource =>
  GC.bind (GC.lift vhd_resource.putRes) fun _ =>
  GC.bind (GC.lift vhd_resource.putRes) fun _ =>
  GC.bind (GC.lift vhd_resource.text) fun _vhd_text =>
  GC.bind (env.pGetMethodParams "Msvm_VirtualSystemManagementService"
      "AddResourceSettings") fun in_params2 =>
  GC.bind (GC.lift in_params2.putRes) fun _ =>
  GC.bind (GC.lift in_params2.putRes) fun _ =>
  GC.bind (env.pExecMethod ctx.2.2 "AddResourceSettings" 1) fun out_params2 =>
  HyperV.handle_job_result env out_params2 "AddResourceSettings"

/-- `HyperV::attach_vhd` : the two phases in sequence. -/
def HyperV.attach_vhd (env : Env) (vm : VirtualMachine)
    (attachment : DiskAttachment) : GC Unit :=
  GC.bind (HyperV.attach_vhd_drive_phase env vm attachment)
    (HyperV.attach_vhd_alloc_phase env vm attachment)

/-- Drive-add phase of `HyperV::mount_iso` (up to and including the first
`handle_job_result`). -/
def HyperV.mount_iso_drive_phase (env : Env) (vm : VirtualMachine)
    (attachment : IsoAttachment) : GC (String × String × String) :=
  GC.bind (GC.lift attachment.validate) fun _ =>
  GC.bind (HyperV.get_vm_settings env vm) fun settings =>
  GC.bind (GC.lift settings.get_path) fun settings_path =>
  GC.bind (HyperV.find_or_create_controller env vm attachment.controller_type
      attachment.controller_number) fun controller =>
  GC.bind (GC.lift controller.get_path) fun controller_path =>
  GC.bind (HyperV.create_dvd_drive env controller_path
      attachment.controller_location) fun dvd =>
  GC.bind (HyperV.get_management_service env) fun mgmt_service =>
  GC.bind (GC.lift mgmt_service.get_path) fun mgmt_path =>
  GC.bind (GC.lift dvd.text) fun _dvd_text =>
  GC.bind (env.pGetMethodParams "Msvm_VirtualSystemManagementService"
      "AddResourceSettings") fun in_params =>
  GC.bind (GC.lift in_params.putRes) fun _ =>
  GC.bind (GC.lift in_params.putRes) fun _ =>
  GC.bind (env.pExecMethod mgmt_path "AddResourceSettings" 0) fun out_params =>
  GC.bind (HyperV.handle_job_result env out_params "AddResourceSettings")
    fun _ =>
  GC.pure (settings_path, controller_path, mgmt_path)

/-- Storage-allocation phase of `HyperV::mount_iso`. -/
def HyperV.mount_iso_alloc_phase (env : Env) (vm : VirtualMachine)
    (attachment : IsoAttachment) (ctx : String × String × String) : GC Unit :=
  GC.bind (HyperV.find_dvd_drive env vm ctx.2.1 attachment.controller_location)
    fun new_dvd =>
  GC.bind (GC.lift new_dvd.get_path) fun _new_dvd_path =>
  GC.bind (env.pSpawnInstance "Msvm_StorageAllocationSettingData")
    fun iso_resource =>
  GC.bind (GC.lift iso_resource.putRes) fun _ =>
  GC.bind (GC.lift iso_resource.putRes) fun _ =>
  GC.bind (GC.lift iso_resource.text) fun _iso_text =>
  GC.bind (env.pGetMethodParams "Msvm_VirtualSystemManagementService"
      "AddResourceSettings") fun in_params2 =>
  GC.bind (GC.lift in_params2.putRes) fun _ =>
  GC.bind (GC.lift in_params2.putRes) fun _ =>
  GC.bind (env.pExecMethod ctx.2.2 "AddResourceSettings" 1) fun out_params2 =>
  HyperV.handle_job_result env out_params2 "AddResourceSettings"

/-- `HyperV::mount_iso` : the two phases in sequence. -/
def HyperV.mount_iso (env : Env) (vm : VirtualMachine)
    (attachment : IsoAttachment) : GC Unit :=
  GC.bind (HyperV.mount_iso_drive_phase env vm attachment)
    (HyperV.mount_iso_alloc_phase env vm attachment)

/-- `HyperV::apply_checkpoint` minus the initial state guard and the
final `vm.refresh()`: resolve the management service, invoke
ApplySnapshot on the checkpoint path, wait. -/
def HyperV.apply_checkpoint_core (env : Env) (_checkpoint : Checkpoint) :
    GC Unit :=
  GC.bind (HyperV.get_management_service env) fun mgmt_service =>
  GC.bind (GC.lift mgmt_service.get_path) fun mgmt_path =>
  GC.bind (env.pGetMethodParams "Msvm_VirtualSystemManagementService"
      "ApplySnapshot") fun in_params =>
  GC.bind (GC.lift in_params.putRes) fun _ =>
  GC.bind (env.pExecMethod mgmt_path "ApplySnapshot" 0) fun out_params =>
  HyperV.handle_job_result env out_params "ApplySnapshot"

/-- `HyperV::apply_checkpoint`. -/
def HyperV.apply_checkpoint (env : Env) (vm : VirtualMachine)
    (checkpoint : Checkpoint) : GC VirtualMachine :=
  if vm.state ≠ VmState.Off then
    GC.fail (Error.InvalidState vm.name vm.state.to_error "apply checkpoint")
  else
    GC.bind (HyperV.apply_checkpoint_core env checkpoint) fun _ =>
    vm.refresh env

/-- `HyperV::delete_checkpoint` : destroy-by-path; note it takes no
`VirtualMachine` at all, so no power-state precondition can be applied. -/
def HyperV.delete_checkpoint (env : Env) (_checkpoint : Checkpoint) : GC Unit :=
  GC.bind (HyperV.get_management_service env) fun mgmt_service =>
  GC.bind (GC.lift mgmt_service.get_path) fun mgmt_path =>
  GC.bind (env.pGetMethodParams "Msvm_VirtualSystemManagementService"
      "DestroySnapshot") fun in_params =>
  GC.bind (GC.lift in_params.putRes) fun _ =>
  GC.bind (env.pExecMethod mgmt_path "DestroySnapshot" 0) fun out_params =>
  HyperV.handle_job_result env out_params "DestroySnapshot"

/-! ## Generic lemmas about the computation model -/

theorem GC.res_bind {α β : Type} (m : GC α) (f : α → GC β) :
    (GC.bind m f).res =
      match m.res with
      | Outcome.ok a => (f a).res
      | Outcome.error e => Outcome.error e
      | Outcome.diverge => Outcome.diverge := by
  obtain ⟨r, t⟩ := m
  cases r <;> rfl

theorem GC.trace_bind {α β : Type} (m : GC α) (f : α → GC β) :
    (GC.bind m f).trace =
      m.trace ++
      (match m.res with
       | Outcome.ok a => (f a).trace
       | Outcome.error _ => []
       | Outcome.diverge => []) := by
  obtain ⟨r, t⟩ := m
  cases r <;> simp [GC.bind, GC.res, GC.trace]

theorem GC.bind_of_error {α β : Type} {m : GC α} {e : Error} {t : List GCall}
    (h : m = (Outcome.error e, t)) (f : α → GC β) :
    GC.bind m f = (Outcome.error e, t) := by
  subst h; rfl

theorem GC.bind_of_diverge {α β : Type} {m : GC α} {t : List GCall}
    (h : m = (Outcome.diverge, t)) (f : α → GC β) :
    GC.bind m f = (Outcome.diverge, t) := by
  subst h; rfl

theorem GC.res_bind_ok {α β : Type} {m : GC α} {f : α → GC β} {b : β}
    (h : (GC.bind m f).res = Outcome.ok b) :
    ∃ a, m.res = Outcome.ok a ∧ (f a).res = Outcome.ok b := by
  obtain ⟨r, t⟩ := m
  cases r with
  | ok a => exact ⟨a, rfl, h⟩
  | error e => simp [GC.bind, GC.res] at h
  | diverge => simp [GC.bind, GC.res] at h

theorem GC.mem_trace_bind {α β : Type} {m : GC α} {f : α → GC β} {c : GCall}
    (h : c ∈ (GC.bind m f).trace) :
    c ∈ m.trace ∨ ∃ a, m.res = Outcome.ok a ∧ c ∈ (f a).trace := by
  obtain ⟨r, t⟩ := m
  cases r with
  | ok a =>
    rcases List.mem_append.mp h with h1 | h2
    · exact Or.inl h1
    · exact Or.inr ⟨a, rfl, h2⟩
  | error e => exact Or.inl h
  | diverge => exact Or.inl h

/-! ## Concrete fixtures used by witnesses and counterexamples -/

/-- A document with no readable properties; all puts succeed. -/
def WmiObject.empty : WmiObject :=
  { getStr := fun _ => Except.ok none
    getNat := fun _ => Except.ok none
    putRes := Except.ok ()
    text := Except.ok "" }

/-- An inert gateway: queries find nothing, fetches fail, spawns and
method-parameter requests hand back empty documents. -/
def Env.trivial : Env :=
  { queryFirst := fun _ => Except.ok none
    query := fun _ _ => Except.ok []
    getObject := fun _ _ => Except.error Error.WmiConnection
    spawnInstance := fun _ => Except.ok WmiObject.empty
    getMethodParams := fun _ _ => Except.ok WmiObject.empty
    execMethod := fun _ _ _ => Except.ok WmiObject.empty
    fuel := 1 }

/-- A running VM fixture. -/
def vm_running : VirtualMachine :=
  { name := "TestVM", id := "4f7d4a52-0000-0000-0000-000000000001"
    state := VmState.Running, generation := Generation.Gen2, path := "VMPATH" }

/-- A powered-off VM fixture. -/
def vm_off : VirtualMachine :=
  { vm_running with state := VmState.Off }

/-! ## C1 : the transition-guard predicates match the §4.1 table -/

/-- C1: for every VM power state, `can_start` holds exactly on
Off/Suspended/Paused, `can_stop` exactly on Running/Paused/Suspended,
`can_pause` exactly on Running, and `can_save` exactly on
Running/Paused; every other state — all transitional states, Unknown,
Disabled, NotApplicable — makes each predicate false. -/
theorem C1_transition_guards (s : VmState) :
    (s.can_start = true ↔
      s = VmState.Off ∨ s = VmState.Suspended ∨ s = VmState.Paused)
  ∧ (s.can_stop = true ↔
      s = VmState.Running ∨ s = VmState.Paused ∨ s = VmState.Suspended)
  ∧ (s.can_pause = true ↔ s = VmState.Running)
  ∧ (s.can_save = true ↔ s = VmState.Running ∨ s = VmState.Paused) := by
  cases s <;> simp [VmState.can_start, VmState.can_stop, VmState.can_pause,
    VmState.can_save]

/-! ## C2 : disallowed lifecycle operations fail cleanly -/

/-- C2: each lifecycle operation invoked while the cached state disallows
it returns an invalid-state error carrying the VM name, the current
state, and the operation's name, and issues no gateway call at all (the
trace is empty, so in particular no state-change request is made and the
VM is untouched); `resume` fails from every state other than Paused and
`reset` from every state other than Running. -/
theorem C2_lifecycle_guard_errors (env : Env) (vm : VirtualMachine)
    (shutdown_type : ShutdownType) :
    (vm.state.can_start = false →
      VirtualMachine.start env vm =
        (Outcome.error (Error.InvalidState vm.name vm.state.to_error "start"), []))
  ∧ (vm.state.can_stop = false →
      VirtualMachine.stop env vm shutdown_type =
        (Outcome.error (Error.InvalidState vm.name vm.state.to_error "stop"), []))
  ∧ (vm.state.can_pause = false →
      VirtualMachine.pause env vm =
        (Outcome.error (Error.InvalidState vm.name vm.state.to_error "pause"), []))
  ∧ (vm.state ≠ VmState.Paused →
      VirtualMachine.resume env vm =
        (Outcome.error (Error.InvalidState vm.name vm.state.to_error "resume"), []))
  ∧ (vm.state.can_save = false →
      VirtualMachine.save env vm =
        (Outcome.error (Error.InvalidState vm.name vm.state.to_error "save"), []))
  ∧ (vm.state ≠ VmState.Running →
      VirtualMachine.reset env vm =
        (Outcome.error (Error.InvalidState vm.name vm.state.to_error "reset"), [])) := by
  refine ⟨fun h => ?_, fun h => ?_, fun h => ?_, fun h => ?_, fun h => ?_,
    fun h => ?_⟩
  · simp [VirtualMachine.start, h, GC.fail]
  · simp [VirtualMachine.stop, h, GC.fail]
  · simp [VirtualMachine.pause, h, GC.fail]
  · simp [VirtualMachine.resume, h, GC.fail]
  · simp [VirtualMachine.save, h, GC.fail]
  · simp [VirtualMachine.reset, h, GC.fail]

/-- C2 witness: a Running VM cannot be started again; concretely, `start`
on the running fixture returns the invalid-state error and an empty
trace. -/
theorem C2_lifecycle_guard_errors_witness :
    vm_running.state.can_start = false ∧
    VirtualMachine.start Env.trivial vm_running =
      (Outcome.error
        (Error.InvalidState vm_running.name vm_running.state.to_error "start"),
       []) :=
  ⟨by decide,
   (C2_lifecycle_guard_errors Env.trivial vm_running ShutdownType.Force).1
     (by decide)⟩

/-! ## C4 : the job monitor's poll loop -/

/-- Job states classified as failure by the monitor (terminated, killed,
exception, service-error). -/
def job_state_fails (s : Nat) : Bool :=
  decide (s = 8 ∨ s = 9 ∨ s = 10 ∨ s = 11)

/-- Terminal job states: completed (7) or one of the failure states. -/
def job_state_terminal (s : Nat) : Bool :=
  decide (s = 7) || job_state_fails s

/-- A cleanly-readable job document with the given JobState, ErrorCode
and ErrorDescription. -/
def job_doc (s ecv : Nat) (edv : String) : WmiObject :=
  { getStr := fun p =>
      if p = "ErrorDescription" then Except.ok (some edv) else Except.ok none
    getNat := fun p =>
      if p = "JobState" then Except.ok (some s)
      else if p = "ErrorCode" then Except.ok (some ecv)
      else Except.ok none
    putRes := Except.ok ()
    text := Except.ok "" }

theorem job_doc_job_state (s ecv : Nat) (edv : String) :
    (job_doc s ecv edv).getNat "JobState" = Except.ok (some s) := rfl

theorem job_doc_error_code (s ecv : Nat) (edv : String) :
    (job_doc s ecv edv).getNat "ErrorCode" = Except.ok (some ecv) := rfl

theorem job_doc_error_desc (s ecv : Nat) (edv : String) :
    (job_doc s ecv edv).getStr "ErrorDescription" = Except.ok (some edv) := rfl

@[simp]
theorem GC.bind_ok_pair {α β : Type} (a : α) (t : List GCall) (f : α → GC β) :
    GC.bind (Outcome.ok a, t) f = ((f a).1, t ++ (f a).2) := rfl

@[simp]
theorem GC.res_pair {α : Type} (r : Outcome α) (t : List GCall) :
    GC.res (r, t) = r := rfl

@[simp]
theorem GC.lift_ok {α : Type} (a : α) :
    GC.lift (Except.ok a : Except Error α) = (Outcome.ok a, []) := rfl

/-- One unrolling of the poll loop under clean job documents. -/
theorem wait_for_job_step (env : Env) (jp op : String)
    (st ec : Nat → Nat) (ed : Nat → String)
    (H : ∀ k, env.getObject jp k = Except.ok (job_doc (st k) (ec k) (ed k)))
    (i fuel : Nat) :
    (HyperV.wait_for_job_from env jp op i (fuel + 1)).res =
      (if st i = 7 then Outcome.ok ()
       else if st i = 8 ∨ st i = 9 ∨ st i = 10 ∨ st i = 11 then
         Outcome.error (Error.JobFailed op (ec i) (ed i))
       else (HyperV.wait_for_job_from env jp op (i + 1) fuel).res) := by
  have hobj : env.pGetObject jp i =
      (Outcome.ok (job_doc (st i) (ec i) (ed i)), [GCall.getObject jp]) := by
    unfold Env.pGetObject
    rw [H i]
    rfl
  by_cases h7 : st i = 7
  · simp [HyperV.wait_for_job_from, hobj, job_doc_job_state, GC.pure, h7]
  · by_cases hf : st i = 8 ∨ st i = 9 ∨ st i = 10 ∨ st i = 11
    · simp [HyperV.wait_for_job_from, hobj, job_doc_job_state,
        job_doc_error_code, job_doc_error_desc, GC.fail, h7, hf]
    · simp [HyperV.wait_for_job_from, hobj, job_doc_job_state, h7, hf, GC.res]

theorem job_state_terminal_false {s : Nat} (h7 : s ≠ 7)
    (hf : ¬ (s = 8 ∨ s = 9 ∨ s = 10 ∨ s = 11)) :
    job_state_terminal s = false := by
  simp [job_state_terminal, job_state_fails]
  omega

/-- Full characterization of the poll loop under clean job documents:
outcome classification as a function of the observed JobState sequence. -/
theorem wait_for_job_characterization (env : Env) (jp op : String)
    (st ec : Nat → Nat) (ed : Nat → String)
    (H : ∀ k, env.getObject jp k = Except.ok (job_doc (st k) (ec k) (ed k))) :
    ∀ (fuel i : Nat),
      ((HyperV.wait_for_job_from env jp op i fuel).res = Outcome.ok () ↔
        ∃ k, k < fuel ∧ st (i + k) = 7 ∧
          ∀ j, j < k → job_state_terminal (st (i + j)) = false)
    ∧ (∀ e, (HyperV.wait_for_job_from env jp op i fuel).res = Outcome.error e ↔
        ∃ k, k < fuel ∧ job_state_fails (st (i + k)) = true ∧
          e = Error.JobFailed op (ec (i + k)) (ed (i + k)) ∧
          ∀ j, j < k → job_state_terminal (st (i + j)) = false)
    ∧ ((HyperV.wait_for_job_from env jp op i fuel).res = Outcome.diverge ↔
        ∀ k, k < fuel → job_state_terminal (st (i + k)) = false) := by
  intro fuel
  induction fuel with
  | zero =>
    intro i
    refine ⟨?_, fun e => ?_, ?_⟩ <;>
      simp [HyperV.wait_for_job_from, GC.res]
  | succ fuel ih =>
    intro i
    have hstep := wait_for_job_step env jp op st ec ed H i fuel
    by_cases h7 : st i = 7
    · rw [hstep, if_pos h7]
      refine ⟨?_, fun e => ?_, ?_⟩
      · simp only [true_iff]
        exact ⟨0, Nat.succ_pos _,
          by simpa using h7, fun j hj => absurd hj (Nat.not_lt_zero j)⟩
      · constructor
        · intro hcon; simp at hcon
        · rintro ⟨k, hk, hfail, he, hbef⟩
          rcases k with _ | k
          · rw [Nat.add_zero, h7] at hfail
            simp [job_state_fails] at hfail
          · have := hbef 0 (Nat.succ_pos _)
            rw [Nat.add_zero, h7] at this
            simp [job_state_terminal] at this
      · constructor
        · intro hcon; simp at hcon
        · intro hall
          have := hall 0 (Nat.succ_pos _)
          rw [Nat.add_zero, h7] at this
          simp [job_state_terminal] at this
    · by_cases hf : st i = 8 ∨ st i = 9 ∨ st i = 10 ∨ st i = 11
      · rw [hstep, if_neg h7, if_pos hf]
        have hfailb : job_state_fails (st i) = true := by
          simp [job_state_fails]; omega
        refine ⟨?_, fun e => ?_, ?_⟩
        · constructor
          · intro hcon; simp at hcon
          · rintro ⟨k, hk, h7k, hbef⟩
            rcases k with _ | k
            · rw [Nat.add_zero] at h7k; exact absurd h7k h7
            · have := hbef 0 (Nat.succ_pos _)
              rw [Nat.add_zero] at this
              rw [job_state_terminal, hfailb, Bool.or_true] at this
              cases this
        · constructor
          · intro he
            have : e = Error.JobFailed op (ec i) (ed i) := by
              cases he; rfl
            exact ⟨0, Nat.succ_pos _, by simpa using hfailb,
              by simpa using this, fun j hj => absurd hj (Nat.not_lt_zero j)⟩
          · rintro ⟨k, hk, hfail, he, hbef⟩
            rcases k with _ | k
            · rw [Nat.add_zero] at he; rw [he]
            · have := hbef 0 (Nat.succ_pos _)
              rw [Nat.add_zero] at this
              rw [job_state_terminal, hfailb, Bool.or_true] at this
              cases this
        · constructor
          · intro hcon; simp at hcon
          · intro hall
            have := hall 0 (Nat.succ_pos _)
            rw [Nat.add_zero] at this
            rw [job_state_terminal, hfailb, Bool.or_true] at this
            cases this
      · rw [hstep, if_neg h7, if_neg hf]
        have hterm : job_state_terminal (st i) = false :=
          job_state_terminal_false h7 hf
        obtain ⟨ih1, ih2, ih3⟩ := ih (i + 1)
        refine ⟨?_, fun e => ?_, ?_⟩
        · rw [ih1]
          constructor
          · rintro ⟨k, hk, h7k, hbef⟩
            refine ⟨k + 1, by omega, ?_, ?_⟩
            · have hidx : i + (k + 1) = i + 1 + k := by omega
              rw [hidx]; exact h7k
            · intro j hj
              rcases j with _ | j
              · rw [Nat.add_zero]; exact hterm
              · have hidx : i + (j + 1) = i + 1 + j := by omega
                rw [hidx]; exact hbef j (by omega)
          · rintro ⟨k, hk, h7k, hbef⟩
            rcases k with _ | k
            · rw [Nat.add_zero] at h7k; exact absurd h7k h7
            · refine ⟨k, by omega, ?_, ?_⟩
              · have hidx : i + 1 + k = i + (k + 1) := by omega
                rw [hidx]; exact h7k
              · intro j hj
                have hidx : i + 1 + j = i + (j + 1) := by omega
                rw [hidx]; exact hbef (j + 1) (by omega)
        · rw [ih2 e]
          constructor
          · rintro ⟨k, hk, hfail, he, hbef⟩
            refine ⟨k + 1, by omega, ?_, ?_, ?_⟩
            · have hidx : i + (k + 1) = i + 1 + k := by omega
              rw [hidx]; exact hfail
            · have hidx : i + (k + 1) = i + 1 + k := by omega
              rw [hidx]; exact he
            · intro j hj
              rcases j with _ | j
              · rw [Nat.add_zero]; exact hterm
              · have hidx : i + (j + 1) = i + 1 + j := by omega
                rw [hidx]; exact hbef j (by omega)
          · rintro ⟨k, hk, hfail, he, hbef⟩
            rcases k with _ | k
            · rw [Nat.add_zero] at hfail
              rw [job_state_terminal, hfail, Bool.or_true] at hterm
              cases hterm
            · refine ⟨k, by omega, ?_, ?_, ?_⟩
              · have hidx : i + 1 + k = i + (k + 1) := by omega
                rw [hidx]; exact hfail
              · have hidx : i + 1 + k = i + (k + 1) := by omega
                rw [hidx]; exact he
              · intro j hj
                have hidx : i + 1 + j = i + (j + 1) := by omega
                rw [hidx]; exact hbef (j + 1) (by omega)
        · rw [ih3]
          constructor
          · intro hall k hk
            rcases k with _ | k
            · rw [Nat.add_zero]; exact hterm
            · have hidx : i + (k + 1) = i + 1 + k := by omega
              rw [hidx]; exact hall k (by omega)
          · intro hall k hk
            have hidx : i + 1 + k = i + (k + 1) := by omega
            rw [hidx]; exact hall (k + 1) (by omega)

/-- The VM-side poll loop (computer_system.rs) is the same loop with the
operation label fixed to "Job". -/
theorem vm_wait_for_job_from_eq (env : Env) (jp : String) :
    ∀ (fuel i : Nat),
      VirtualMachine.wait_for_job_from env jp i fuel =
        HyperV.wait_for_job_from env jp "Job" i fuel := by
  intro fuel
  induction fuel with
  | zero => intro i; rfl
  | succ fuel ih =>
    intro i
    unfold VirtualMachine.wait_for_job_from HyperV.wait_for_job_from
    refine congrArg (GC.bind _) (funext fun job => ?_)
    refine congrArg (GC.bind _) (funext fun js => ?_)
    by_cases h7 : js.getD 0 = 7
    · simp [h7]
    · by_cases hfl : js.getD 0 = 8 ∨ js.getD 0 = 9 ∨ js.getD 0 = 10 ∨
          js.getD 0 = 11
      · simp [h7, hfl]
      · simp [h7, hfl, ih]

/-- C4: under cleanly-readable job documents, the poll loop returns
success exactly when the observed JobState sequence first reaches 7;
returns a job-failure error carrying that job's error code and error
description exactly when it first reaches one of 8, 9, 10, 11; and for
any other observed states keeps polling (it produces no result at all
within the given fuel — in particular it never classifies a
non-terminal state as failure).  The VM-side monitor is the identical
loop labelled "Job". -/
theorem C4_job_monitor (env : Env) (jp op : String)
    (st ec : Nat → Nat) (ed : Nat → String)
    (H : ∀ k, env.getObject jp k = Except.ok (job_doc (st k) (ec k) (ed k))) :
    ((HyperV.wait_for_job env jp op).res = Outcome.ok () ↔
      ∃ k, k < env.fuel ∧ st k = 7 ∧
        ∀ j, j < k → job_state_terminal (st j) = false)
  ∧ (∀ e, (HyperV.wait_for_job env jp op).res = Outcome.error e ↔
      ∃ k, k < env.fuel ∧ job_state_fails (st k) = true ∧
        e = Error.JobFailed op (ec k) (ed k) ∧
        ∀ j, j < k → job_state_terminal (st j) = false)
  ∧ ((HyperV.wait_for_job env jp op).res = Outcome.diverge ↔
      ∀ k, k < env.fuel → job_state_terminal (st k) = false)
  ∧ (∀ fuel i, VirtualMachine.wait_for_job_from env jp i fuel =
      HyperV.wait_for_job_from env jp "Job" i fuel) := by
  obtain ⟨h1, h2, h3⟩ := wait_for_job_characterization env jp op st ec ed H
    env.fuel 0
  refine ⟨?_, fun e => ?_, ?_, vm_wait_for_job_from_eq env jp⟩
  · simpa using h1
  · simpa using h2 e
  · simpa using h3

/-- A gateway whose `get_object` always serves the same clean job
document for any path: JobState 7, no error payload. -/
def env_job_done : Env :=
  { Env.trivial with
    getObject := fun _ _ => Except.ok (job_doc 7 0 "") }

/-- C4 witness: with a job document already in state 7 the monitor
reports success at once. -/
theorem C4_job_monitor_witness :
    (∀ k, env_job_done.getObject "JOB" k =
      Except.ok (job_doc ((fun _ => 7) k) ((fun _ => 0) k) ((fun _ => "") k)))
    ∧ (HyperV.wait_for_job env_job_done "JOB" "DefineSystem").res =
        Outcome.ok () :=
  ⟨fun _ => rfl,
   ((C4_job_monitor env_job_done "JOB" "DefineSystem"
       (fun _ => 7) (fun _ => 0) (fun _ => "") (fun _ => rfl)).1).mpr
     ⟨0, by decide, rfl, fun j hj => absurd hj (Nat.not_lt_zero j)⟩⟩

/-! ## C3 : gateway status-code dispatch -/

/-- An output-parameter document carrying only ReturnValue = 4096. -/
def out_params_4096 : WmiObject :=
  { WmiObject.empty with
    getNat := fun p =>
      if p = "ReturnValue" then Except.ok (some 4096) else Except.ok none }

/-- An output-parameter document carrying only ReturnValue = 0. -/
def out_params_zero : WmiObject :=
  { WmiObject.empty with
    getNat := fun p =>
      if p = "ReturnValue" then Except.ok (some 0) else Except.ok none }

/-- A shutdown-component document exposing only its object path. -/
def shutdown_component_obj : WmiObject :=
  { WmiObject.empty with
    getStr := fun p =>
      if p = "__PATH" then Except.ok (some "SHUTDOWN_COMPONENT")
      else Except.ok none }

/-- A gateway on which the in-guest InitiateShutdown request returns the
queued status 4096. -/
def env_shutdown_4096 : Env :=
  { Env.trivial with
    queryFirst := fun q =>
      if q = "SELECT * FROM Msvm_ShutdownComponent WHERE SystemName='"
            ++ vm_running.id ++ "'"
      then Except.ok (some shutdown_component_obj)
      else Except.ok none
    execMethod := fun _ _ _ => Except.ok out_params_4096 }

/-- C3 counterexample: at the in-guest graceful-shutdown call site a
return value of 4096 is NOT treated as "queued, poll the job" — it is
reported as a hard operation failure, with no job object ever fetched
(the trace contains no getObject call).  This refutes the claim's "at
every call site" clause. -/
theorem C3_counterexample :
    VirtualMachine.stop env_shutdown_4096 vm_running ShutdownType.Graceful =
      (Outcome.error
        (Error.OperationFailed "InitiateShutdown" 4096
          "Graceful shutdown failed"),
       [GCall.queryFirst
          "SELECT * FROM Msvm_ShutdownComponent WHERE SystemName='4f7d4a52-0000-0000-0000-000000000001'",
        GCall.getMethodParams "Msvm_ShutdownComponent" "InitiateShutdown",
        GCall.execMethod "SHUTDOWN_COMPONENT" "InitiateShutdown"]) := by
  rfl

/-- C3 (amended): the 0 / 4096 / other dispatch holds at
`handle_job_result` (used by every HyperV-side call site) and at
`request_state_change`; the in-guest graceful-shutdown request, however,
treats every nonzero return value — 4096 included — as a hard
operation-failed error and never polls a job. -/
theorem C3_status_code_dispatch (env : Env) (out : WmiObject) (op : String)
    (vm : VirtualMachine) (requested : RequestedState) :
    (out.getNat "ReturnValue" = Except.ok (some 0) →
      HyperV.handle_job_result env out op = (Outcome.ok (), []))
  ∧ (∀ p, out.getNat "ReturnValue" = Except.ok (some 4096) →
      out.getStr "Job" = Except.ok (some p) →
      HyperV.handle_job_result env out op = HyperV.wait_for_job env p op)
  ∧ (∀ c, out.getNat "ReturnValue" = Except.ok (some c) → c ≠ 0 → c ≠ 4096 →
      HyperV.handle_job_result env out op =
        (Outcome.error (Error.OperationFailed op c (op ++ " failed")), []))
  ∧ (∀ ip,
      env.getMethodParams "Msvm_ComputerSystem" "RequestStateChange" =
        Except.ok ip →
      ip.putRes = Except.ok () →
      env.execMethod vm.path "RequestStateChange" 0 = Except.ok out →
      ((out.getNat "ReturnValue" = Except.ok (some 0) →
          (VirtualMachine.request_state_change env vm requested).res =
            Outcome.ok ())
       ∧ (∀ p, out.getNat "ReturnValue" = Except.ok (some 4096) →
            out.getStr "Job" = Except.ok (some p) → p ≠ "" →
            (VirtualMachine.request_state_change env vm requested).res =
              (VirtualMachine.wait_for_job env p).res)
       ∧ (∀ c, out.getNat "ReturnValue" = Except.ok (some c) →
            c ≠ 0 → c ≠ 4096 →
            (VirtualMachine.request_state_change env vm requested).res =
              Outcome.error (Error.OperationFailed "RequestStateChange" c
                ("State change to " ++ requested.debug_str ++ " failed")))))
  ∧ (∀ sc cp ip,
      env.queryFirst
        ("SELECT * FROM Msvm_ShutdownComponent WHERE SystemName='"
          ++ vm.id ++ "'") = Except.ok (some sc) →
      sc.get_path = Except.ok cp →
      env.getMethodParams "Msvm_ShutdownComponent" "InitiateShutdown" =
        Except.ok ip →
      ip.putRes = Except.ok () →
      env.execMethod cp "InitiateShutdown" 0 = Except.ok out →
      ∀ c, out.getNat "ReturnValue" = Except.ok (some c) → c ≠ 0 →
        VirtualMachine.graceful_shutdown env vm =
          (Outcome.error
            (Error.OperationFailed "InitiateShutdown" c
              "Graceful shutdown failed"),
           [GCall.queryFirst
              ("SELECT * FROM Msvm_ShutdownComponent WHERE SystemName='"
                ++ vm.id ++ "'"),
            GCall.getMethodParams "Msvm_ShutdownComponent" "InitiateShutdown",
            GCall.execMethod cp "InitiateShutdown"])) := by
  refine ⟨fun h0 => ?_, fun p h4 hj => ?_, fun c hc h0 h4 => ?_,
    fun ip hip hput hexec => ⟨fun h0 => ?_, fun p h4 hj hp => ?_,
      fun c hc h0 h4 => ?_⟩, fun sc cp ip hq hcp hip hput hexec c hc h0 => ?_⟩
  · simp [HyperV.handle_job_result, h0, GC.pure]
  · simp [HyperV.handle_job_result, h4, hj]
  · simp [HyperV.handle_job_result, hc, h0, h4, GC.fail]
  · simp [VirtualMachine.request_state_change, Env.pGetMethodParams,
      Env.pExecMethod, logCall, hip, hput, hexec, h0, GC.pure, GC.res]
  · simp [VirtualMachine.request_state_change, Env.pGetMethodParams,
      Env.pExecMethod, logCall, hip, hput, hexec, h4, hj, hp, GC.res]
  · simp [VirtualMachine.request_state_change, Env.pGetMethodParams,
      Env.pExecMethod, logCall, hip, hput, hexec, hc, h0, h4, GC.fail, GC.res]
  · simp [VirtualMachine.graceful_shutdown, Env.pQueryFirst,
      Env.pGetMethodParams, Env.pExecMethod, logCall, hq, hcp, hip, hput,
      hexec, hc, h0, GC.fail]

/-- C3 witness: `handle_job_result` on a ReturnValue-0 document reports
immediate success with no gateway calls. -/
theorem C3_status_code_dispatch_witness :
    out_params_zero.getNat "ReturnValue" = Except.ok (some 0) ∧
    HyperV.handle_job_result Env.trivial out_params_zero "DefineSystem" =
      (Outcome.ok (), []) :=
  ⟨rfl,
   (C3_status_code_dispatch Env.trivial out_params_zero "DefineSystem"
     vm_running RequestedState.Running).1 rfl⟩

/-! ## C10 : queued status with a missing job path -/

/-- Output parameters: ReturnValue 4096 with a present-but-empty Job
path (an empty BSTR is read as `Some("")`, not `None`). -/
def out_4096_empty_job : WmiObject :=
  { WmiObject.empty with
    getNat := fun p =>
      if p = "ReturnValue" then Except.ok (some 4096) else Except.ok none
    getStr := fun p =>
      if p = "Job" then Except.ok (some "") else Except.ok none }

/-- Output parameters: ReturnValue 4096 with a wrongly-typed Job
property (reading it yields a type-conversion error). -/
def out_4096_bad_job : WmiObject :=
  { WmiObject.empty with
    getNat := fun p =>
      if p = "ReturnValue" then Except.ok (some 4096) else Except.ok none
    getStr := fun p =>
      if p = "Job" then Except.error (Error.TypeConversion "unknown" "String")
      else Except.ok none }

/-- Output parameters: ReturnValue 4096 with no Job property at all. -/
def out_4096_no_job : WmiObject :=
  { WmiObject.empty with
    getNat := fun p =>
      if p = "ReturnValue" then Except.ok (some 4096) else Except.ok none }

/-- C10 counterexample: in `handle_job_result` (as reached from every
HyperV-side call site), a queued status with a present-but-EMPTY job
path is handed to the poller — the trace shows a getObject on the empty
path, so the operation is not "reported as success without any
polling"; and a queued status with an UNREADABLE job property
propagates the type-conversion error instead of reporting success.
Only the absent case is silent success, so the claim as stated is
false. -/
theorem C10_counterexample :
    HyperV.handle_job_result Env.trivial out_4096_empty_job
        "AddResourceSettings" =
      (Outcome.error Error.WmiConnection, [GCall.getObject ""])
  ∧ HyperV.handle_job_result Env.trivial out_4096_bad_job
        "AddResourceSettings" =
      (Outcome.error (Error.TypeConversion "unknown" "String"), []) := by
  exact ⟨rfl, rfl⟩

/-- C10 (amended): in `request_state_change` a queued status whose job
path is absent, unreadable, or empty is silently treated as completion
(success, no polling).  In `handle_job_result` only an absent job
property yields silent success; an unreadable one propagates its read
error, and a present-but-empty path is handed to the job poller. -/
theorem C10_missing_job_path (env : Env) (out : WmiObject) (op : String)
    (vm : VirtualMachine) (requested : RequestedState) :
    (∀ ip,
      env.getMethodParams "Msvm_ComputerSystem" "RequestStateChange" =
        Except.ok ip →
      ip.putRes = Except.ok () →
      env.execMethod vm.path "RequestStateChange" 0 = Except.ok out →
      out.getNat "ReturnValue" = Except.ok (some 4096) →
      (out.getStr "Job" = Except.ok none ∨
        (∃ e, out.getStr "Job" = Except.error e) ∨
        out.getStr "Job" = Except.ok (some "")) →
      VirtualMachine.request_state_change env vm requested =
        (Outcome.ok (),
         [GCall.getMethodParams "Msvm_ComputerSystem" "RequestStateChange",
          GCall.execMethod vm.path "RequestStateChange"]))
  ∧ (out.getNat "ReturnValue" = Except.ok (some 4096) →
      out.getStr "Job" = Except.ok none →
      HyperV.handle_job_result env out op = (Outcome.ok (), []))
  ∧ (∀ e, out.getNat "ReturnValue" = Except.ok (some 4096) →
      out.getStr "Job" = Except.error e →
      HyperV.handle_job_result env out op = (Outcome.error e, []))
  ∧ (∀ p, out.getNat "ReturnValue" = Except.ok (some 4096) →
      out.getStr "Job" = Except.ok (some p) →
      HyperV.handle_job_result env out op = HyperV.wait_for_job env p op) := by
  refine ⟨fun ip hip hput hexec h4 hjob => ?_, fun h4 hjob => ?_,
    fun e h4 hjob => ?_, fun p h4 hjob => ?_⟩
  · rcases hjob with hjob | ⟨e, hjob⟩ | hjob <;>
      simp [VirtualMachine.request_state_change, Env.pGetMethodParams,
        Env.pExecMethod, logCall, hip, hput, hexec, h4, hjob, GC.pure]
  · simp [HyperV.handle_job_result, h4, hjob, GC.pure]
  · simp [HyperV.handle_job_result, h4, hjob, GC.lift, GC.bind]
  · simp [HyperV.handle_job_result, h4, hjob]

/-- C10 witness: a queued RequestStateChange whose output parameters
carry no job path at all is reported as success with no polling. -/
theorem C10_missing_job_path_witness :
    out_4096_no_job.getNat "ReturnValue" = Except.ok (some 4096) ∧
    out_4096_no_job.getStr "Job" = Except.ok none ∧
    HyperV.handle_job_result Env.trivial out_4096_no_job "DestroySystem" =
      (Outcome.ok (), []) :=
  ⟨rfl, rfl,
   (C10_missing_job_path Env.trivial out_4096_no_job "DestroySystem"
     vm_running RequestedState.Running).2.1 rfl rfl⟩

/-! ## C9 : delete_vm has an Off-state precondition -/

/-- C9: for every VM whose cached state is not Off, `delete_vm` returns
an invalid-state error carrying the VM name, the current state and the
operation name "delete", and issues no gateway call at all — in
particular no DestroySystem request. -/
theorem C9_delete_vm_guard (env : Env) (vm : VirtualMachine)
    (h : vm.state ≠ VmState.Off) :
    HyperV.delete_vm env vm =
      (Outcome.error (Error.InvalidState vm.name vm.state.to_error "delete"),
       []) := by
  simp [HyperV.delete_vm, h, GC.fail]

/-- C9 witness: deleting the running fixture fails with the
invalid-state error and an empty trace. -/
theorem C9_delete_vm_guard_witness :
    vm_running.state ≠ VmState.Off ∧
    HyperV.delete_vm Env.trivial vm_running =
      (Outcome.error
        (Error.InvalidState vm_running.name vm_running.state.to_error
          "delete"),
       []) :=
  ⟨by decide, C9_delete_vm_guard Env.trivial vm_running (by decide)⟩

/-! ## C8 : checkpoint apply is gated on Off, delete is not -/

/-- C8: `apply_checkpoint` requires the VM to be Off — otherwise it
returns an invalid-state error and issues no call at all (so the restore
operation is never invoked); when it succeeds, the VM handle it returns
is exactly the result of the forced state refresh.  `delete_checkpoint`
takes no VM and no power-state precondition: whenever the management
service and method parameters resolve, the DestroySnapshot invocation is
issued unconditionally. -/
theorem C8_checkpoint_gates (env : Env) (vm : VirtualMachine)
    (cp : Checkpoint) :
    (vm.state ≠ VmState.Off →
      HyperV.apply_checkpoint env vm cp =
        (Outcome.error
          (Error.InvalidState vm.name vm.state.to_error "apply checkpoint"),
         []))
  ∧ (∀ vm2, (HyperV.apply_checkpoint env vm cp).res = Outcome.ok vm2 →
      (vm.refresh env).res = Outcome.ok vm2)
  ∧ (∀ mgmt mgmt_path ip,
      env.queryFirst "SELECT * FROM Msvm_VirtualSystemManagementService" =
        Except.ok (some mgmt) →
      mgmt.get_path = Except.ok mgmt_path →
      env.getMethodParams "Msvm_VirtualSystemManagementService"
        "DestroySnapshot" = Except.ok ip →
      ip.putRes = Except.ok () →
      GCall.execMethod mgmt_path "DestroySnapshot" ∈
        (HyperV.delete_checkpoint env cp).trace) := by
  refine ⟨fun h => ?_, fun vm2 hok => ?_,
    fun mgmt mgmt_path ip hq hcp hip hput => ?_⟩
  · simp [HyperV.apply_checkpoint, h, GC.fail]
  · by_cases h : vm.state = VmState.Off
    · rw [HyperV.apply_checkpoint, if_neg (by simpa using h)] at hok
      obtain ⟨_, _, hrefresh⟩ := GC.res_bind_ok hok
      exact hrefresh
    · rw [HyperV.apply_checkpoint, if_pos (by simpa using h)] at hok
      simp [GC.fail, GC.res] at hok
  · have hcp2 : mgmt.get_string_prop_required "__PATH" = Except.ok mgmt_path :=
      hcp
    rcases hexec : env.execMethod mgmt_path "DestroySnapshot" 0 with out | e <;>
      simp [HyperV.delete_checkpoint, HyperV.get_management_service,
        Env.pQueryFirst, Env.pGetMethodParams, Env.pExecMethod, logCall,
        hq, hcp2, hip, hput, hexec, GC.bind, GC.pure, GC.trace,
        WmiObject.get_path]

/-- C8 witness: applying a checkpoint to the running fixture fails with
the invalid-state error and an empty trace, and on the inert gateway a
delete issued against the same checkpoint still reaches the
DestroySnapshot invocation (given a resolvable management service). -/
theorem C8_checkpoint_gates_witness :
    vm_running.state ≠ VmState.Off ∧
    HyperV.apply_checkpoint Env.trivial vm_running
        { name := "Snap1", id := "CPID", vm_id := vm_running.id,
          parent_id := none, creation_time := "", notes := none,
          path := "CPPATH" } =
      (Outcome.error
        (Error.InvalidState vm_running.name vm_running.state.to_error
          "apply checkpoint"),
       []) :=
  ⟨by decide,
   (C8_checkpoint_gates Env.trivial vm_running
     { name := "Snap1", id := "CPID", vm_id := vm_running.id,
       parent_id := none, creation_time := "", notes := none,
       path := "CPPATH" }).1 (by decide)⟩

/-! ## C6 : two-phase attach never orphans a storage allocation

A storage-allocation resource can only come into being through a
`spawn_instance("Msvm_StorageAllocationSettingData")` call, so "never
spawned or added" reduces to that call being absent from the trace. -/

/-- The computation never spawns a storage-allocation document. -/
def no_storage_alloc_spawn {α : Type} (m : GC α) : Prop :=
  GCall.spawnInstance "Msvm_StorageAllocationSettingData" ∉ m.trace

theorem logCall_trace {α : Type} (c : GCall) (r : Except Error α) :
    (logCall c r).trace = [c] := by
  cases r <;> rfl

theorem nsas_of_trace_nil {α : Type} {m : GC α} (h : m.trace = []) :
    no_storage_alloc_spawn m := by
  intro hmem
  rw [h] at hmem
  exact List.not_mem_nil _ hmem

theorem nsas_bind {α β : Type} {m : GC α} {f : α → GC β}
    (hm : no_storage_alloc_spawn m)
    (hf : ∀ a, no_storage_alloc_spawn (f a)) :
    no_storage_alloc_spawn (GC.bind m f) := by
  intro hmem
  rcases GC.mem_trace_bind hmem with h | ⟨a, _, h⟩
  · exact hm h
  · exact hf a h

theorem nsas_lift {α : Type} (r : Except Error α) :
    no_storage_alloc_spawn (GC.lift r) := by
  cases r <;> exact List.not_mem_nil _

theorem nsas_logCall {α : Type} {c : GCall} (r : Except Error α)
    (hc : GCall.spawnInstance "Msvm_StorageAllocationSettingData" ≠ c) :
    no_storage_alloc_spawn (logCall c r) := by
  intro hmem
  rw [logCall_trace] at hmem
  exact hc (List.mem_singleton.mp hmem)

theorem nsas_pQueryFirst (env : Env) (q : String) :
    no_storage_alloc_spawn (env.pQueryFirst q) := by
  unfold Env.pQueryFirst
  exact nsas_logCall _ (by simp)

theorem nsas_pQuery (env : Env) (q : String) (k : Nat) :
    no_storage_alloc_spawn (env.pQuery q k) := by
  unfold Env.pQuery
  exact nsas_logCall _ (by simp)

theorem nsas_pGetObject (env : Env) (p : String) (k : Nat) :
    no_storage_alloc_spawn (env.pGetObject p k) := by
  unfold Env.pGetObject
  exact nsas_logCall _ (by simp)

theorem nsas_pGetMethodParams (env : Env) (c m : String) :
    no_storage_alloc_spawn (env.pGetMethodParams c m) := by
  unfold Env.pGetMethodParams
  exact nsas_logCall _ (by simp)

theorem nsas_pExecMethod (env : Env) (p m : String) (k : Nat) :
    no_storage_alloc_spawn (env.pExecMethod p m k) := by
  unfold Env.pExecMethod
  exact nsas_logCall _ (by simp)

theorem nsas_pSpawnInstance (env : Env) {cls : String}
    (h : cls ≠ "Msvm_StorageAllocationSettingData") :
    no_storage_alloc_spawn (env.pSpawnInstance cls) := by
  unfold Env.pSpawnInstance
  apply nsas_logCall
  intro he
  exact h (GCall.spawnInstance.inj he).symm

theorem nsas_get_vm_settings (env : Env) (vm : VirtualMachine) :
    no_storage_alloc_spawn (HyperV.get_vm_settings env vm) := by
  unfold HyperV.get_vm_settings
  apply nsas_bind (nsas_pQueryFirst env _)
  intro s
  cases s
  · exact nsas_of_trace_nil rfl
  · exact nsas_of_trace_nil rfl

theorem nsas_get_management_service (env : Env) :
    no_storage_alloc_spawn (HyperV.get_management_service env) := by
  unfold HyperV.get_management_service
  apply nsas_bind (nsas_pQueryFirst env _)
  intro s
  cases s
  · exact nsas_of_trace_nil rfl
  · exact nsas_of_trace_nil rfl

theorem nsas_wait_for_job_from (env : Env) (jp op : String) :
    ∀ fuel i,
      no_storage_alloc_spawn (HyperV.wait_for_job_from env jp op i fuel) := by
  intro fuel
  induction fuel with
  | zero => intro i; exact nsas_of_trace_nil rfl
  | succ fuel ih =>
    intro i
    rw [HyperV.wait_for_job_from]
    apply nsas_bind (nsas_pGetObject env _ _)
    intro job
    apply nsas_bind (nsas_lift _)
    intro js
    dsimp only
    split
    · exact nsas_of_trace_nil rfl
    · split
      · apply nsas_bind (nsas_lift _)
        intro ec
        apply nsas_bind (nsas_lift _)
        intro ed
        exact nsas_of_trace_nil rfl
      · exact ih (i + 1)

theorem nsas_wait_for_job (env : Env) (jp op : String) :
    no_storage_alloc_spawn (HyperV.wait_for_job env jp op) :=
  nsas_wait_for_job_from env jp op env.fuel 0

theorem nsas_handle_job_result (env : Env) (out : WmiObject) (op : String) :
    no_storage_alloc_spawn (HyperV.handle_job_result env out op) := by
  unfold HyperV.handle_job_result
  apply nsas_bind (nsas_lift _)
  intro rv
  dsimp only
  split
  · exact nsas_of_trace_nil rfl
  · split
    · apply nsas_bind (nsas_lift _)
      intro job
      cases job with
      | none => exact nsas_of_trace_nil rfl
      | some p => exact nsas_wait_for_job env p op
    · exact nsas_of_trace_nil rfl

theorem nsas_add_scsi_controller (env : Env) (vm : VirtualMachine) :
    no_storage_alloc_spawn (HyperV.add_scsi_controller env vm) := by
  unfold HyperV.add_scsi_controller
  apply nsas_bind (nsas_get_vm_settings env vm)
  intro vs
  apply nsas_bind (nsas_lift _)
  intro sp
  apply nsas_bind (nsas_pSpawnInstance env (by decide))
  intro ctrl
  apply nsas_bind (nsas_lift _)
  intro u1
  apply nsas_bind (nsas_lift _)
  intro u2
  apply nsas_bind (nsas_lift _)
  intro u3
  apply nsas_bind (nsas_get_management_service env)
  intro mgmt
  apply nsas_bind (nsas_lift _)
  intro mp
  apply nsas_bind (nsas_pGetMethodParams env _ _)
  intro ip
  apply nsas_bind (nsas_lift _)
  intro u4
  apply nsas_bind (nsas_lift _)
  intro u5
  apply nsas_bind (nsas_pExecMethod env _ _ _)
  intro out
  exact nsas_handle_job_result env out _

theorem scan_controllers_with_address_trace (rs : String) (n : Nat) :
    ∀ l : List WmiObject,
      (scan_controllers_with_address rs n l).trace = [] := by
  intro l
  induction l with
  | nil => rfl
  | cons c rest ih =>
    rw [scan_controllers_with_address]
    rcases hst : c.getStr "ResourceSubType" with e | v
    · simp [GC.bind, GC.lift, hst, GC.trace]
    · rcases v with _ | subtype
      · simp [GC.bind, GC.lift, hst, GC.trace, GC.trace] at ih ⊢
        exact ih
      · by_cases hc : str_contains subtype rs
        · rcases ha : c.getStr "Address" with e2 | a
          · simp [GC.bind, GC.lift, hst, hc, ha, GC.trace]
          · rcases a with _ | addr
            · simp [GC.bind, GC.lift, hst, hc, ha, GC.trace] at ih ⊢
              exact ih
            · by_cases hp : parse_u32_or_zero addr = n
              · simp [GC.bind, GC.lift, hst, hc, ha, hp, GC.trace, GC.pure]
              · simp [GC.bind, GC.lift, hst, hc, ha, hp, GC.trace] at ih ⊢
                exact ih
        · simp [GC.bind, GC.lift, hst, hc, GC.trace] at ih ⊢
          exact ih

theorem scan_controllers_subtype_only_trace (rs : String) :
    ∀ l : List WmiObject,
      (scan_controllers_subtype_only rs l).trace = [] := by
  intro l
  induction l with
  | nil => rfl
  | cons c rest ih =>
    rw [scan_controllers_subtype_only]
    rcases hst : c.getStr "ResourceSubType" with e | v
    · simp [GC.bind, GC.lift, hst, GC.trace]
    · rcases v with _ | subtype
      · simp [GC.bind, GC.lift, hst, GC.trace] at ih ⊢
        exact ih
      · by_cases hc : str_contains subtype rs
        · simp [GC.bind, GC.lift, hst, hc, GC.trace, GC.pure]
        · simp [GC.bind, GC.lift, hst, hc, GC.trace] at ih ⊢
          exact ih

theorem scan_drives_trace (dk cp : String) (loc : Nat) :
    ∀ l : List WmiObject, (scan_drives dk cp loc l).trace = [] := by
  intro l
  induction l with
  | nil => rfl
  | cons c rest ih =>
    rw [scan_drives]
    rcases hst : c.getStr "ResourceSubType" with e | v
    · simp [GC.bind, GC.lift, hst, GC.trace]
    · rcases v with _ | subtype
      · simp [GC.bind, GC.lift, hst, GC.trace] at ih ⊢
        exact ih
      · by_cases hc : str_contains subtype dk
        · rcases hpar : c.getStr "Parent" with e2 | par
          · simp [GC.bind, GC.lift, hst, hc, hpar, GC.trace]
          · rcases par with _ | p
            · simp [GC.bind, GC.lift, hst, hc, hpar, GC.trace] at ih ⊢
              exact ih
            · by_cases hpc : p = cp
              · rcases haddr : c.getNat "AddressOnParent" with e3 | a
                · simp [GC.bind, GC.lift, hst, hc, hpar, hpc, haddr, GC.trace]
                · rcases a with _ | addr
                  · simp [GC.bind, GC.lift, hst, hc, hpar, hpc, haddr,
                      GC.trace] at ih ⊢
                    exact ih
                  · by_cases hl : addr = loc
                    · simp [GC.bind, GC.lift, hst, hc, hpar, hpc, haddr, hl,
                        GC.trace, GC.pure]
                    · simp [GC.bind, GC.lift, hst, hc, hpar, hpc, haddr, hl,
                        GC.trace] at ih ⊢
                      exact ih
              · simp [GC.bind, GC.lift, hst, hc, hpar, hpc, GC.trace] at ih ⊢
                exact ih
        · simp [GC.bind, GC.lift, hst, hc, GC.trace] at ih ⊢
          exact ih

theorem nsas_find_or_create_controller (env : Env) (vm : VirtualMachine)
    (ct : ControllerType) (n : Nat) :
    no_storage_alloc_spawn (HyperV.find_or_create_controller env vm ct n) := by
  unfold HyperV.find_or_create_controller
  apply nsas_bind (nsas_get_vm_settings env vm)
  intro vs
  apply nsas_bind (nsas_lift _)
  intro sp
  apply nsas_bind (nsas_pQuery env _ _)
  intro cs
  apply nsas_bind (nsas_of_trace_nil (scan_controllers_with_address_trace _ _ _))
  intro found
  cases found with
  | some c => exact nsas_of_trace_nil rfl
  | none =>
    dsimp only
    split
    · apply nsas_bind (nsas_add_scsi_controller env vm)
      intro u
      apply nsas_bind (nsas_pQuery env _ _)
      intro cs2
      apply nsas_bind
        (nsas_of_trace_nil (scan_controllers_subtype_only_trace _ _))
      intro found2
      cases found2 with
      | some c => exact nsas_of_trace_nil rfl
      | none => exact nsas_of_trace_nil rfl
    · exact nsas_of_trace_nil rfl

theorem nsas_create_disk_drive (env : Env) (cp : String) (loc : Nat) :
    no_storage_alloc_spawn (HyperV.create_disk_drive env cp loc) := by
  unfold HyperV.create_disk_drive
  apply nsas_bind (nsas_pSpawnInstance env (by decide))
  intro d
  apply nsas_bind (nsas_lift _)
  intro u1
  apply nsas_bind (nsas_lift _)
  intro u2
  apply nsas_bind (nsas_lift _)
  intro u3
  apply nsas_bind (nsas_lift _)
  intro u4
  exact nsas_of_trace_nil rfl

theorem nsas_create_dvd_drive (env : Env) (cp : String) (loc : Nat) :
    no_storage_alloc_spawn (HyperV.create_dvd_drive env cp loc) := by
  unfold HyperV.create_dvd_drive
  apply nsas_bind (nsas_pSpawnInstance env (by decide))
  intro d
  apply nsas_bind (nsas_lift _)
  intro u1
  apply nsas_bind (nsas_lift _)
  intro u2
  apply nsas_bind (nsas_lift _)
  intro u3
  apply nsas_bind (nsas_lift _)
  intro u4
  exact nsas_of_trace_nil rfl

theorem nsas_attach_vhd_drive_phase (env : Env) (vm : VirtualMachine)
    (att : DiskAttachment) :
    no_storage_alloc_spawn (HyperV.attach_vhd_drive_phase env vm att) := by
  unfold HyperV.attach_vhd_drive_phase
  apply nsas_bind (nsas_lift _)
  intro u0
  apply nsas_bind (nsas_get_vm_settings env vm)
  intro s
  apply nsas_bind (nsas_lift _)
  intro sp
  apply nsas_bind (nsas_find_or_create_controller env vm _ _)
  intro ctrl
  apply nsas_bind (nsas_lift _)
  intro cpath
  apply nsas_bind (nsas_create_disk_drive env _ _)
  intro drive
  apply nsas_bind (nsas_get_management_service env)
  intro mgmt
  apply nsas_bind (nsas_lift _)
  intro mp
  apply nsas_bind (nsas_lift _)
  intro dt
  apply nsas_bind (nsas_pGetMethodParams env _ _)
  intro ip
  apply nsas_bind (nsas_lift _)
  intro u1
  apply nsas_bind (nsas_lift _)
  intro u2
  apply nsas_bind (nsas_pExecMethod env _ _ _)
  intro out
  apply nsas_bind (nsas_handle_job_result env out _)
  intro u3
  exact nsas_of_trace_nil rfl

theorem nsas_mount_iso_drive_phase (env : Env) (vm : VirtualMachine)
    (att : IsoAttachment) :
    no_storage_alloc_spawn (HyperV.mount_iso_drive_phase env vm att) := by
  unfold HyperV.mount_iso_drive_phase
  apply nsas_bind (nsas_lift _)
  intro u0
  apply nsas_bind (nsas_get_vm_settings env vm)
  intro s
  apply nsas_bind (nsas_lift _)
  intro sp
  apply nsas_bind (nsas_find_or_create_controller env vm _ _)
  intro ctrl
  apply nsas_bind (nsas_lift _)
  intro cpath
  apply nsas_bind (nsas_create_dvd_drive env _ _)
  intro dvd
  apply nsas_bind (nsas_get_management_service env)
  intro mgmt
  apply nsas_bind (nsas_lift _)
  intro mp
  apply nsas_bind (nsas_lift _)
  intro dt
  apply nsas_bind (nsas_pGetMethodParams env _ _)
  intro ip
  apply nsas_bind (nsas_lift _)
  intro u1
  apply nsas_bind (nsas_lift _)
  intro u2
  apply nsas_bind (nsas_pExecMethod env _ _ _)
  intro out
  apply nsas_bind (nsas_handle_job_result env out _)
  intro u3
  exact nsas_of_trace_nil rfl

/-- C6: if the drive-add phase of a disk attach or ISO mount fails (with
an error, or by its job never terminating), the whole operation stops
with exactly that result and trace, and no storage-allocation resource
referencing the media path was ever spawned — the phase-2 spawn/add is
never attempted. -/
theorem C6_no_orphaned_storage_allocation (env : Env) (vm : VirtualMachine)
    (att : DiskAttachment) (iso : IsoAttachment) :
    (∀ e t, HyperV.attach_vhd_drive_phase env vm att = (Outcome.error e, t) →
      HyperV.attach_vhd env vm att = (Outcome.error e, t) ∧
        GCall.spawnInstance "Msvm_StorageAllocationSettingData" ∉ t)
  ∧ (∀ t, HyperV.attach_vhd_drive_phase env vm att = (Outcome.diverge, t) →
      HyperV.attach_vhd env vm att = (Outcome.diverge, t) ∧
        GCall.spawnInstance "Msvm_StorageAllocationSettingData" ∉ t)
  ∧ (∀ e t, HyperV.mount_iso_drive_phase env vm iso = (Outcome.error e, t) →
      HyperV.mount_iso env vm iso = (Outcome.error e, t) ∧
        GCall.spawnInstance "Msvm_StorageAllocationSettingData" ∉ t)
  ∧ (∀ t, HyperV.mount_iso_drive_phase env vm iso = (Outcome.diverge, t) →
      HyperV.mount_iso env vm iso = (Outcome.diverge, t) ∧
        GCall.spawnInstance "Msvm_StorageAllocationSettingData" ∉ t) := by
  refine ⟨fun e t h => ⟨GC.bind_of_error h _, ?_⟩,
    fun t h => ⟨GC.bind_of_diverge h _, ?_⟩,
    fun e t h => ⟨GC.bind_of_error h _, ?_⟩,
    fun t h => ⟨GC.bind_of_diverge h _, ?_⟩⟩
  · have := nsas_attach_vhd_drive_phase env vm att
    rw [h] at this
    exact this
  · have := nsas_attach_vhd_drive_phase env vm att
    rw [h] at this
    exact this
  · have := nsas_mount_iso_drive_phase env vm iso
    rw [h] at this
    exact this
  · have := nsas_mount_iso_drive_phase env vm iso
    rw [h] at this
    exact this

/-- A valid SCSI bus-0 location-0 disk attachment fixture. -/
def disk_fixture : DiskAttachment :=
  { vhd_path := "C:\\VMs\\data.vhdx", controller_type := ControllerType.Scsi,
    controller_number := 0, controller_location := 0 }

/-- C6 witness: on the inert gateway the drive-add phase fails (the VM's
settings document cannot be found), and the whole attach stops with that
error, its trace free of storage-allocation spawns. -/
theorem C6_no_orphaned_storage_allocation_witness :
    HyperV.attach_vhd_drive_phase Env.trivial vm_off disk_fixture =
      (Outcome.error (Error.VmNotFound "TestVM"),
       [GCall.queryFirst (settings_query vm_off.id)])
  ∧ (HyperV.attach_vhd Env.trivial vm_off disk_fixture =
      (Outcome.error (Error.VmNotFound "TestVM"),
       [GCall.queryFirst (settings_query vm_off.id)]) ∧
     GCall.spawnInstance "Msvm_StorageAllocationSettingData" ∉
       [GCall.queryFirst (settings_query vm_off.id)]) :=
  ⟨rfl,
   (C6_no_orphaned_storage_allocation Env.trivial vm_off disk_fixture
     { iso_path := "C:\\media\\boot.iso",
       controller_type := ControllerType.Ide,
       controller_number := 1, controller_location := 0 }).1 _ _ rfl⟩

/-! ## C5 : find-or-create controller -/

/-- A hit of the first scan loop carries a matching subtype AND a
matching parsed address. -/
theorem scan_with_address_ok (rs : String) (n : Nat) :
    ∀ (l : List WmiObject) (c : WmiObject),
      (scan_controllers_with_address rs n l).res = Outcome.ok (some c) →
      ∃ subtype, c.getStr "ResourceSubType" = Except.ok (some subtype) ∧
        str_contains subtype rs = true ∧
        ∃ a, c.getStr "Address" = Except.ok (some a) ∧
          parse_u32_or_zero a = n := by
  intro l
  induction l with
  | nil =>
    intro c h
    simp [scan_controllers_with_address, GC.pure, GC.res] at h
  | cons hd rest ih =>
    intro c h
    rw [scan_controllers_with_address] at h
    rcases hst : hd.getStr "ResourceSubType" with e | v <;> rw [hst] at h
    · simp [GC.bind, GC.lift, GC.res] at h
    · rcases v with _ | subtype
      · simp only [GC.lift, GC.bind_ok_pair, GC.res_pair] at h
        exact ih c h
      · by_cases hc : str_contains subtype rs
        · simp only [GC.lift, GC.bind_ok_pair, GC.res_pair, hc, if_true] at h
          rcases ha : hd.getStr "Address" with e2 | a <;> rw [ha] at h
          · simp [GC.bind, GC.lift, GC.res] at h
          · rcases a with _ | addr
            · simp only [GC.lift, GC.bind_ok_pair, GC.res_pair] at h
              exact ih c h
            · by_cases hp : parse_u32_or_zero addr = n
              · simp only [GC.lift, GC.bind_ok_pair, GC.res_pair, hp, if_true,
                  GC.pure] at h
                obtain rfl : hd = c := by
                  cases h
                  rfl
                exact ⟨subtype, hst, hc, addr, ha, hp⟩
              · simp only [GC.lift, GC.bind_ok_pair, GC.res_pair, hp,
                  if_false] at h
                exact ih c h
        · simp only [GC.lift, GC.bind_ok_pair, GC.res_pair, hc, if_false] at h
          exact ih c h

/-- A hit of the re-scan loop carries a matching subtype — and nothing
more: the address is never examined. -/
theorem scan_subtype_only_ok (rs : String) :
    ∀ (l : List WmiObject) (c : WmiObject),
      (scan_controllers_subtype_only rs l).res = Outcome.ok (some c) →
      ∃ subtype, c.getStr "ResourceSubType" = Except.ok (some subtype) ∧
        str_contains subtype rs = true := by
  intro l
  induction l with
  | nil =>
    intro c h
    simp [scan_controllers_subtype_only, GC.pure, GC.res] at h
  | cons hd rest ih =>
    intro c h
    rw [scan_controllers_subtype_only] at h
    rcases hst : hd.getStr "ResourceSubType" with e | v <;> rw [hst] at h
    · simp [GC.bind, GC.lift, GC.res] at h
    · rcases v with _ | subtype
      · simp only [GC.lift, GC.bind_ok_pair, GC.res_pair] at h
        exact ih c h
      · by_cases hc : str_contains subtype rs
        · simp only [GC.lift, GC.bind_ok_pair, GC.res_pair, hc, if_true,
            GC.pure] at h
          obtain rfl : hd = c := by
            cases h
            rfl
          exact ⟨subtype, hst, hc⟩
        · simp only [GC.lift, GC.bind_ok_pair, GC.res_pair, hc, if_false] at h
          exact ih c h

/-- C5 (amended): if a controller of the requested subtype at the
requested address already exists in the resource list, find-or-create
returns it and issues nothing beyond the two lookup queries (no
creation, hence calling it twice in that situation creates nothing);
only the SCSI type supports synthetic creation — an IDE miss errors
without creating; but every controller the function returns is only
guaranteed to match the requested TYPE (the post-creation re-scan never
examines the address, so the returned controller need not sit at the
requested address — see the counterexample). -/
theorem C5_find_or_create_controller (env : Env) (vm : VirtualMachine)
    (ct : ControllerType) (n : Nat) :
    (∀ settings sp controllers c,
      env.queryFirst (settings_query vm.id) = Except.ok (some settings) →
      settings.get_path = Except.ok sp →
      env.query (resources_query sp) 0 = Except.ok controllers →
      (scan_controllers_with_address ct.resource_subtype n controllers).res =
        Outcome.ok (some c) →
      HyperV.find_or_create_controller env vm ct n =
        (Outcome.ok c,
         [GCall.queryFirst (settings_query vm.id),
          GCall.query (resources_query sp)]))
  ∧ (∀ settings sp controllers,
      env.queryFirst (settings_query vm.id) = Except.ok (some settings) →
      settings.get_path = Except.ok sp →
      env.query (resources_query sp) 0 = Except.ok controllers →
      (scan_controllers_with_address
          ControllerType.Ide.resource_subtype n controllers).res =
        Outcome.ok none →
      HyperV.find_or_create_controller env vm ControllerType.Ide n =
        (Outcome.error (Error.OperationFailed "FindController" 0
          ("Controller Ide #" ++ toString n ++ " not found")),
         [GCall.queryFirst (settings_query vm.id),
          GCall.query (resources_query sp)]))
  ∧ (∀ c, (HyperV.find_or_create_controller env vm ct n).res =
        Outcome.ok c →
      ∃ subtype, c.getStr "ResourceSubType" = Except.ok (some subtype) ∧
        str_contains subtype ct.resource_subtype = true) := by
  refine ⟨fun settings sp controllers c hq hsp hquery hscan => ?_,
    fun settings sp controllers hq hsp hquery hscan => ?_, fun c h => ?_⟩
  · have hsp2 : settings.get_string_prop_required "__PATH" = Except.ok sp := hsp
    have hval : scan_controllers_with_address ct.resource_subtype n
        controllers = (Outcome.ok (some c), []) := by
      rw [← hscan, ← scan_controllers_with_address_trace ct.resource_subtype n
        controllers]
      rfl
    simp [HyperV.find_or_create_controller, HyperV.get_vm_settings,
      Env.pQueryFirst, Env.pQuery, logCall, hq, hsp2, hquery, hval,
      GC.bind, GC.lift, GC.pure, WmiObject.get_path]
  · have hsp2 : settings.get_string_prop_required "__PATH" = Except.ok sp := hsp
    have hval : scan_controllers_with_address
        ControllerType.Ide.resource_subtype n controllers =
        (Outcome.ok none, []) := by
      rw [← hscan, ← scan_controllers_with_address_trace
        ControllerType.Ide.resource_subtype n controllers]
      rfl
    simp [HyperV.find_or_create_controller, HyperV.get_vm_settings,
      Env.pQueryFirst, Env.pQuery, logCall, hq, hsp2, hquery, hval,
      GC.bind, GC.lift, GC.pure, GC.fail, WmiObject.get_path,
      ControllerType.debug_str]
  · rw [HyperV.find_or_create_controller] at h
    obtain ⟨settings, _, h⟩ := GC.res_bind_ok h
    obtain ⟨sp, _, h⟩ := GC.res_bind_ok h
    obtain ⟨controllers, _, h⟩ := GC.res_bind_ok h
    obtain ⟨found, hscan, h⟩ := GC.res_bind_ok h
    cases found with
    | some c0 =>
      have hcc : c0 = c := by
        simpa [GC.pure, GC.res] using h
      subst hcc
      obtain ⟨subtype, h1, h2, _⟩ :=
        scan_with_address_ok ct.resource_subtype n controllers c0 hscan
      exact ⟨subtype, h1, h2⟩
    | none =>
      dsimp only at h
      by_cases hty : ct = ControllerType.Scsi
      · rw [if_pos hty] at h
        obtain ⟨_, _, h⟩ := GC.res_bind_ok h
        obtain ⟨controllers2, _, h⟩ := GC.res_bind_ok h
        obtain ⟨found2, hscan2, h⟩ := GC.res_bind_ok h
        cases found2 with
        | some c1 =>
          have hcc : c1 = c := by
            simpa [GC.pure, GC.res] using h
          subst hcc
          exact scan_subtype_only_ok ct.resource_subtype controllers2 c1 hscan2
        | none => simp [GC.fail, GC.res] at h
      · rw [if_neg hty] at h
        simp [GC.fail, GC.res] at h

/-- A document describing a synthetic SCSI controller at a given address
with a given object path. -/
def scsi_ctrl_at (addr path : String) : WmiObject :=
  { WmiObject.empty with
    getStr := fun p =>
      if p = "ResourceSubType" then
        Except.ok (some "Microsoft:Hyper-V:Synthetic SCSI Controller")
      else if p = "Address" then Except.ok (some addr)
      else if p = "__PATH" then Except.ok (some path)
      else Except.ok none }

/-- The VM's settings document for the C5 scenario. -/
def settings_obj_c5 : WmiObject :=
  { WmiObject.empty with
    getStr := fun p =>
      if p = "__PATH" then Except.ok (some "SETTINGS") else Except.ok none }

/-- A management-service document for the C5 scenario. -/
def mgmt_obj_c5 : WmiObject :=
  { WmiObject.empty with
    getStr := fun p =>
      if p = "__PATH" then Except.ok (some "MGMT") else Except.ok none }

/-- The C5 gateway: the VM has one SCSI controller at address 0; an
AddResourceSettings succeeds immediately, after which the resource list
additionally holds a freshly created SCSI controller at address 1. -/
def env_c5 : Env :=
  { Env.trivial with
    queryFirst := fun q =>
      if q = settings_query vm_off.id then Except.ok (some settings_obj_c5)
      else if q = "SELECT * FROM Msvm_VirtualSystemManagementService" then
        Except.ok (some mgmt_obj_c5)
      else Except.ok none
    query := fun q k =>
      if q = resources_query "SETTINGS" then
        (if k = 0 then Except.ok [scsi_ctrl_at "0" "CTRL0"]
         else Except.ok [scsi_ctrl_at "0" "CTRL0", scsi_ctrl_at "1" "CTRL1"])
      else Except.ok []
    execMethod := fun _ _ _ => Except.ok out_params_zero }

set_option maxRecDepth 100000 in
/-- C5 counterexample: requesting (SCSI, controller 1) when only a SCSI
controller at address 0 exists triggers the creation path (the trace
contains the controller spawn), yet the function returns the OLD
controller at address 0 — the re-scan matched on subtype alone, so the
controller returned after creation does NOT match the requested
address.  This refutes the claim's address-correctness conjunct. -/
theorem C5_counterexample :
    (HyperV.find_or_create_controller env_c5 vm_off
        ControllerType.Scsi 1).res = Outcome.ok (scsi_ctrl_at "0" "CTRL0")
  ∧ (scsi_ctrl_at "0" "CTRL0").getStr "Address" = Except.ok (some "0")
  ∧ parse_u32_or_zero "0" ≠ 1
  ∧ GCall.spawnInstance "Msvm_ResourceAllocationSettingData" ∈
      (HyperV.find_or_create_controller env_c5 vm_off
        ControllerType.Scsi 1).trace := by
  refine ⟨rfl, rfl, by decide, by decide⟩

set_option maxRecDepth 100000 in
/-- C5 witness: requesting (SCSI, controller 0) finds the existing
controller at address 0 and issues only the two lookup queries — no
creation takes place. -/
theorem C5_find_or_create_controller_witness :
    (scan_controllers_with_address
        ControllerType.Scsi.resource_subtype 0
        [scsi_ctrl_at "0" "CTRL0"]).res =
      Outcome.ok (some (scsi_ctrl_at "0" "CTRL0")) ∧
    HyperV.find_or_create_controller env_c5 vm_off ControllerType.Scsi 0 =
      (Outcome.ok (scsi_ctrl_at "0" "CTRL0"),
       [GCall.queryFirst (settings_query vm_off.id),
        GCall.query (resources_query "SETTINGS")]) :=
  ⟨rfl,
   (C5_find_or_create_controller env_c5 vm_off ControllerType.Scsi 0).1
     settings_obj_c5 "SETTINGS" [scsi_ctrl_at "0" "CTRL0"]
     (scsi_ctrl_at "0" "CTRL0") rfl rfl rfl rfl⟩

/-! ## C7 : VmSettings validation -/

theorem validate_gen1_ok_iff (s : VmSettings) :
    s.validate_gen1 = Except.ok () ↔
      (s.generation = Generation.Gen1 → s.secure_boot = false) := by
  rw [VmSettings.validate_gen1]
  rcases hgen : s.generation <;> rcases hsb : s.secure_boot <;>
    simp [hgen, hsb]

theorem validate_buffer_ok_iff (s : VmSettings) :
    s.validate_buffer = Except.ok () ↔
      ((∀ b, s.memory_buffer_percentage = some b → b ≤ 100) ∧
       (s.generation = Generation.Gen1 → s.secure_boot = false)) := by
  rw [VmSettings.validate_buffer]
  rcases hbuf : s.memory_buffer_percentage with _ | b
  · dsimp only
    rw [validate_gen1_ok_iff]
    simp
  · dsimp only
    by_cases hb : b > 100
    · rw [if_pos hb]
      constructor
      · intro h; simp at h
      · rintro ⟨hall, -⟩
        have := hall b rfl
        omega
    · rw [if_neg hb, validate_gen1_ok_iff]
      constructor
      · intro hg
        exact ⟨fun b2 hb2 => by cases hb2; omega, hg⟩
      · rintro ⟨-, hg⟩; exact hg

theorem validate_min_max_ok_iff (s : VmSettings) :
    s.validate_min_max = Except.ok () ↔
      ((∀ m mx, s.dynamic_memory_min_mb = some m →
          s.dynamic_memory_max_mb = some mx → m ≤ mx) ∧
       (∀ b, s.memory_buffer_percentage = some b → b ≤ 100) ∧
       (s.generation = Generation.Gen1 → s.secure_boot = false)) := by
  rw [VmSettings.validate_min_max]
  rcases hmin : s.dynamic_memory_min_mb with _ | m <;>
    rcases hmax : s.dynamic_memory_max_mb with _ | mx <;> dsimp only
  · rw [validate_buffer_ok_iff]; simp
  · rw [validate_buffer_ok_iff]; simp
  · rw [validate_buffer_ok_iff]; simp
  · by_cases hmm : m > mx
    · rw [if_pos hmm]
      constructor
      · intro h; simp at h
      · rintro ⟨hall, -⟩
        have := hall m mx rfl rfl
        omega
    · rw [if_neg hmm, validate_buffer_ok_iff]
      constructor
      · rintro ⟨hb, hg⟩
        exact ⟨fun m2 mx2 hm2 hmx2 => by cases hm2; cases hmx2; omega, hb, hg⟩
      · rintro ⟨-, hb, hg⟩; exact ⟨hb, hg⟩

theorem validate_dyn_max_ok_iff (s : VmSettings) :
    s.validate_dyn_max = Except.ok () ↔
      ((∀ mx, s.dynamic_memory_max_mb = some mx → s.memory_mb ≤ mx) ∧
       (∀ m mx, s.dynamic_memory_min_mb = some m →
          s.dynamic_memory_max_mb = some mx → m ≤ mx) ∧
       (∀ b, s.memory_buffer_percentage = some b → b ≤ 100) ∧
       (s.generation = Generation.Gen1 → s.secure_boot = false)) := by
  rw [VmSettings.validate_dyn_max]
  rcases hmax : s.dynamic_memory_max_mb with _ | mx <;> dsimp only
  · rw [validate_min_max_ok_iff, hmax]
    simp
  · by_cases hx : mx < s.memory_mb
    · rw [if_pos hx]
      constructor
      · intro h; simp at h
      · rintro ⟨hall, -⟩
        have := hall mx rfl
        omega
    · rw [if_neg hx, validate_min_max_ok_iff, hmax]
      have hle : s.memory_mb ≤ mx := Nat.le_of_not_lt hx
      constructor
      · rintro ⟨hmm, hb, hg⟩
        exact ⟨fun mx2 hmx2 => by cases hmx2; omega, hmm, hb, hg⟩
      · rintro ⟨-, hmm, hb, hg⟩; exact ⟨hmm, hb, hg⟩

theorem validate_dyn_min_ok_iff (s : VmSettings) :
    s.validate_dyn_min = Except.ok () ↔
      ((∀ m, s.dynamic_memory_min_mb = some m → 32 ≤ m ∧ m ≤ s.memory_mb) ∧
       (∀ mx, s.dynamic_memory_max_mb = some mx → s.memory_mb ≤ mx) ∧
       (∀ m mx, s.dynamic_memory_min_mb = some m →
          s.dynamic_memory_max_mb = some mx → m ≤ mx) ∧
       (∀ b, s.memory_buffer_percentage = some b → b ≤ 100) ∧
       (s.generation = Generation.Gen1 → s.secure_boot = false)) := by
  rw [VmSettings.validate_dyn_min]
  rcases hmin : s.dynamic_memory_min_mb with _ | m <;> dsimp only
  · rw [validate_dyn_max_ok_iff, hmin]
    simp
  · by_cases hlt : m < 32
    · rw [if_pos hlt]
      constructor
      · intro h; simp at h
      · rintro ⟨hall, -⟩
        have := hall m rfl
        omega
    · rw [if_neg hlt]
      by_cases hgt : m > s.memory_mb
      · rw [if_pos hgt]
        constructor
        · intro h; simp at h
        · rintro ⟨hall, -⟩
          have := hall m rfl
          omega
      · rw [if_neg hgt, validate_dyn_max_ok_iff, hmin]
        constructor
        · rintro ⟨hx, hmm, hb, hg⟩
          exact ⟨fun m2 hm2 => by cases hm2; omega, hx, hmm, hb, hg⟩
        · rintro ⟨-, hx, hmm, hb, hg⟩; exact ⟨hx, hmm, hb, hg⟩

/-- Acceptance characterization of `VmSettings::validate` for a VM with
a well-formed name: the settings pass exactly when every numeric
invariant of §4.5 holds. -/
theorem validate_ok_iff (s : VmSettings)
    (h1 : s.name ≠ "") (h2 : s.name.utf8ByteSize ≤ 100)
    (h3 : s.name.data.any is_reserved_name_char = false) :
    s.validate = Except.ok () ↔
      (32 ≤ s.memory_mb ∧ s.memory_mb ≤ 12582912 ∧
       1 ≤ s.processor_count ∧ s.processor_count ≤ 240 ∧
       (s.dynamic_memory = true →
         ((∀ m, s.dynamic_memory_min_mb = some m → 32 ≤ m ∧ m ≤ s.memory_mb) ∧
          (∀ mx, s.dynamic_memory_max_mb = some mx → s.memory_mb ≤ mx) ∧
          (∀ m mx, s.dynamic_memory_min_mb = some m →
            s.dynamic_memory_max_mb = some mx → m ≤ mx) ∧
          (∀ b, s.memory_buffer_percentage = some b → b ≤ 100))) ∧
       (s.generation = Generation.Gen1 → s.secure_boot = false)) := by
  have hn2 : ¬ (s.name.utf8ByteSize > 100) := by omega
  have hn3 : ¬ (s.name.data.any is_reserved_name_char = true) := by
    simp [h3]
  rw [VmSettings.validate, if_neg h1, if_neg hn2, if_neg hn3]
  by_cases hm1 : s.memory_mb < 32
  · rw [if_pos hm1]
    constructor
    · intro h; simp at h
    · rintro ⟨ha, -⟩; omega
  · rw [if_neg hm1]
    by_cases hm2 : s.memory_mb > 12582912
    · rw [if_pos hm2]
      constructor
      · intro h; simp at h
      · rintro ⟨-, hb, -⟩; omega
    · rw [if_neg hm2]
      by_cases hp1 : s.processor_count < 1
      · rw [if_pos hp1]
        constructor
        · intro h; simp at h
        · rintro ⟨-, -, hc, -⟩; omega
      · rw [if_neg hp1]
        by_cases hp2 : s.processor_count > 240
        · rw [if_pos hp2]
          constructor
          · intro h; simp at h
          · rintro ⟨-, -, -, hd, -⟩; omega
        · rw [if_neg hp2]
          cases hdm : s.dynamic_memory with
          | false =>
            rw [if_neg (by simp [hdm]), validate_gen1_ok_iff]
            constructor
            · intro hg
              refine ⟨by omega, by omega, by omega, by omega,
                fun hcon => ?_, hg⟩
              exact absurd hcon Bool.false_ne_true
            · rintro ⟨-, -, -, -, -, hg⟩; exact hg
          | true =>
            rw [if_pos (by simp [hdm]), validate_dyn_min_ok_iff]
            constructor
            · rintro ⟨ha, hb, hc, hd, hg⟩
              exact ⟨by omega, by omega, by omega, by omega,
                fun _ => ⟨ha, hb, hc, hd⟩, hg⟩
            · rintro ⟨-, -, -, -, hdyn, hg⟩
              obtain ⟨ha, hb, hc, hd⟩ := hdyn rfl
              exact ⟨ha, hb, hc, hd, hg⟩

theorem validate_reach_dyn (s : VmSettings)
    (h1 : s.name ≠ "") (h2 : s.name.utf8ByteSize ≤ 100)
    (h3 : s.name.data.any is_reserved_name_char = false)
    (hmem1 : 32 ≤ s.memory_mb) (hmem2 : s.memory_mb ≤ 12582912)
    (hp1 : 1 ≤ s.processor_count) (hp2 : s.processor_count ≤ 240)
    (hdyn : s.dynamic_memory = true) :
    s.validate = s.validate_dyn_min := by
  rw [VmSettings.validate, if_neg h1, if_neg (by omega),
    if_neg (by simp [h3]), if_neg (by omega), if_neg (by omega),
    if_neg (by omega), if_neg (by omega), if_pos hdyn]

theorem validate_reach_gen1 (s : VmSettings)
    (h1 : s.name ≠ "") (h2 : s.name.utf8ByteSize ≤ 100)
    (h3 : s.name.data.any is_reserved_name_char = false)
    (hmem1 : 32 ≤ s.memory_mb) (hmem2 : s.memory_mb ≤ 12582912)
    (hp1 : 1 ≤ s.processor_count) (hp2 : s.processor_count ≤ 240)
    (hdyn : s.dynamic_memory = false) :
    s.validate = s.validate_gen1 := by
  rw [VmSettings.validate, if_neg h1, if_neg (by omega),
    if_neg (by simp [h3]), if_neg (by omega), if_neg (by omega),
    if_neg (by omega), if_neg (by omega), if_neg (by simp [hdyn])]

theorem validate_dyn_min_skip (s : VmSettings)
    (hminok : ∀ m, s.dynamic_memory_min_mb = some m →
      32 ≤ m ∧ m ≤ s.memory_mb) :
    s.validate_dyn_min = s.validate_dyn_max := by
  rw [VmSettings.validate_dyn_min]
  rcases hmin : s.dynamic_memory_min_mb with _ | m
  · rfl
  · dsimp only
    obtain ⟨ha, hb⟩ := hminok m hmin
    rw [if_neg (by omega), if_neg (by omega)]

theorem validate_dyn_max_skip (s : VmSettings)
    (hmaxok : ∀ mx, s.dynamic_memory_max_mb = some mx →
      s.memory_mb ≤ mx) :
    s.validate_dyn_max = s.validate_min_max := by
  rw [VmSettings.validate_dyn_max]
  rcases hmax : s.dynamic_memory_max_mb with _ | mx
  · rfl
  · dsimp only
    have := hmaxok mx hmax
    rw [if_neg (by omega)]

theorem validate_min_max_skip (s : VmSettings)
    (hminok : ∀ m, s.dynamic_memory_min_mb = some m →
      32 ≤ m ∧ m ≤ s.memory_mb)
    (hmaxok : ∀ mx, s.dynamic_memory_max_mb = some mx →
      s.memory_mb ≤ mx) :
    s.validate_min_max = s.validate_buffer := by
  rw [VmSettings.validate_min_max]
  rcases hmin : s.dynamic_memory_min_mb with _ | m <;>
    rcases hmax : s.dynamic_memory_max_mb with _ | mx
  · rfl
  · rfl
  · rfl
  · dsimp only
    obtain ⟨ha, hb⟩ := hminok m hmin
    have hc := hmaxok mx hmax
    rw [if_neg (by omega)]

theorem validate_buffer_skip (s : VmSettings)
    (hbufok : ∀ b, s.memory_buffer_percentage = some b → b ≤ 100) :
    s.validate_buffer = s.validate_gen1 := by
  rw [VmSettings.validate_buffer]
  rcases hbuf : s.memory_buffer_percentage with _ | b
  · rfl
  · dsimp only
    have := hbufok b hbuf
    rw [if_neg (by omega)]

theorem validate_err_min_low (s : VmSettings)
    (h1 : s.name ≠ "") (h2 : s.name.utf8ByteSize ≤ 100)
    (h3 : s.name.data.any is_reserved_name_char = false)
    (hmem1 : 32 ≤ s.memory_mb) (hmem2 : s.memory_mb ≤ 12582912)
    (hp1 : 1 ≤ s.processor_count) (hp2 : s.processor_count ≤ 240)
    (hdyn : s.dynamic_memory = true) {m : Nat}
    (hmin : s.dynamic_memory_min_mb = some m) (hlt : m < 32) :
    s.validate = Except.error (Error.Validation "dynamic_memory_min_mb"
      "Minimum dynamic memory must be at least 32 MB") := by
  rw [validate_reach_dyn s h1 h2 h3 hmem1 hmem2 hp1 hp2 hdyn,
    VmSettings.validate_dyn_min, hmin]
  dsimp only
  rw [if_pos hlt]

theorem validate_err_min_high (s : VmSettings)
    (h1 : s.name ≠ "") (h2 : s.name.utf8ByteSize ≤ 100)
    (h3 : s.name.data.any is_reserved_name_char = false)
    (hmem1 : 32 ≤ s.memory_mb) (hmem2 : s.memory_mb ≤ 12582912)
    (hp1 : 1 ≤ s.processor_count) (hp2 : s.processor_count ≤ 240)
    (hdyn : s.dynamic_memory = true) {m : Nat}
    (hmin : s.dynamic_memory_min_mb = some m) (hgt : m > s.memory_mb) :
    s.validate = Except.error (Error.Validation "dynamic_memory_min_mb"
      "Minimum memory cannot exceed startup memory") := by
  rw [validate_reach_dyn s h1 h2 h3 hmem1 hmem2 hp1 hp2 hdyn,
    VmSettings.validate_dyn_min, hmin]
  dsimp only
  rw [if_neg (by omega), if_pos hgt]

theorem validate_err_max_low (s : VmSettings)
    (h1 : s.name ≠ "") (h2 : s.name.utf8ByteSize ≤ 100)
    (h3 : s.name.data.any is_reserved_name_char = false)
    (hmem1 : 32 ≤ s.memory_mb) (hmem2 : s.memory_mb ≤ 12582912)
    (hp1 : 1 ≤ s.processor_count) (hp2 : s.processor_count ≤ 240)
    (hdyn : s.dynamic_memory = true)
    (hminok : ∀ m, s.dynamic_memory_min_mb = some m →
      32 ≤ m ∧ m ≤ s.memory_mb)
    {mx : Nat} (hmax : s.dynamic_memory_max_mb = some mx)
    (hx : mx < s.memory_mb) :
    s.validate = Except.error (Error.Validation "dynamic_memory_max_mb"
      "Maximum memory cannot be less than startup memory") := by
  rw [validate_reach_dyn s h1 h2 h3 hmem1 hmem2 hp1 hp2 hdyn,
    validate_dyn_min_skip s hminok, VmSettings.validate_dyn_max, hmax]
  dsimp only
  rw [if_pos hx]

/-- C7: for a well-formed name, `VmSettings::validate` accepts exactly
the in-range configurations (the iff), and each out-of-range
configuration the spec lists is rejected with a validation error naming
an offending field: memory bounds, processor bounds, dynamic minimum
below 32 MB or above startup, maximum below startup, buffer above 100%,
secure boot on Generation 1; a dynamic minimum above the maximum is
always rejected as well, through a dynamic-memory field error (the
dedicated min>max branch is shadowed by the min≤startup≤max checks). -/
theorem C7_vm_settings_validation (s : VmSettings)
    (h1 : s.name ≠ "") (h2 : s.name.utf8ByteSize ≤ 100)
    (h3 : s.name.data.any is_reserved_name_char = false) :
    (s.validate = Except.ok () ↔
      (32 ≤ s.memory_mb ∧ s.memory_mb ≤ 12582912 ∧
       1 ≤ s.processor_count ∧ s.processor_count ≤ 240 ∧
       (s.dynamic_memory = true →
         ((∀ m, s.dynamic_memory_min_mb = some m →
            32 ≤ m ∧ m ≤ s.memory_mb) ∧
          (∀ mx, s.dynamic_memory_max_mb = some mx → s.memory_mb ≤ mx) ∧
          (∀ m mx, s.dynamic_memory_min_mb = some m →
            s.dynamic_memory_max_mb = some mx → m ≤ mx) ∧
          (∀ b, s.memory_buffer_percentage = some b → b ≤ 100))) ∧
       (s.generation = Generation.Gen1 → s.secure_boot = false)))
  ∧ (s.memory_mb < 32 →
      s.validate = Except.error (Error.Validation "memory_mb"
        "Memory must be at least 32 MB"))
  ∧ (s.memory_mb > 12582912 →
      s.validate = Except.error (Error.Validation "memory_mb"
        "Memory cannot exceed 12 TB"))
  ∧ (32 ≤ s.memory_mb → s.memory_mb ≤ 12582912 → s.processor_count < 1 →
      s.validate = Except.error (Error.Validation "processor_count"
        "Processor count must be at least 1"))
  ∧ (32 ≤ s.memory_mb → s.memory_mb ≤ 12582912 → s.processor_count > 240 →
      s.validate = Except.error (Error.Validation "processor_count"
        "Processor count cannot exceed 240"))
  ∧ (∀ m, 32 ≤ s.memory_mb → s.memory_mb ≤ 12582912 →
      1 ≤ s.processor_count → s.processor_count ≤ 240 →
      s.dynamic_memory = true → s.dynamic_memory_min_mb = some m → m < 32 →
      s.validate = Except.error (Error.Validation "dynamic_memory_min_mb"
        "Minimum dynamic memory must be at least 32 MB"))
  ∧ (∀ m, 32 ≤ s.memory_mb → s.memory_mb ≤ 12582912 →
      1 ≤ s.processor_count → s.processor_count ≤ 240 →
      s.dynamic_memory = true → s.dynamic_memory_min_mb = some m →
      m > s.memory_mb →
      s.validate = Except.error (Error.Validation "dynamic_memory_min_mb"
        "Minimum memory cannot exceed startup memory"))
  ∧ (∀ mx, 32 ≤ s.memory_mb → s.memory_mb ≤ 12582912 →
      1 ≤ s.processor_count → s.processor_count ≤ 240 →
      s.dynamic_memory = true →
      (∀ m, s.dynamic_memory_min_mb = some m →
        32 ≤ m ∧ m ≤ s.memory_mb) →
      s.dynamic_memory_max_mb = some mx → mx < s.memory_mb →
      s.validate = Except.error (Error.Validation "dynamic_memory_max_mb"
        "Maximum memory cannot be less than startup memory"))
  ∧ (∀ b, 32 ≤ s.memory_mb → s.memory_mb ≤ 12582912 →
      1 ≤ s.processor_count → s.processor_count ≤ 240 →
      s.dynamic_memory = true →
      (∀ m, s.dynamic_memory_min_mb = some m →
        32 ≤ m ∧ m ≤ s.memory_mb) →
      (∀ mx, s.dynamic_memory_max_mb = some mx → s.memory_mb ≤ mx) →
      s.memory_buffer_percentage = some b → b > 100 →
      s.validate = Except.error (Error.Validation "memory_buffer_percentage"
        "Memory buffer cannot exceed 100%"))
  ∧ (∀ m mx, 32 ≤ s.memory_mb → s.memory_mb ≤ 12582912 →
      1 ≤ s.processor_count → s.processor_count ≤ 240 →
      s.dynamic_memory = true → s.dynamic_memory_min_mb = some m →
      s.dynamic_memory_max_mb = some mx → m > mx →
      ∃ f msg, s.validate = Except.error (Error.Validation f msg) ∧
        (f = "dynamic_memory_min_mb" ∨ f = "dynamic_memory_max_mb"))
  ∧ (32 ≤ s.memory_mb → s.memory_mb ≤ 12582912 →
      1 ≤ s.processor_count → s.processor_count ≤ 240 →
      (s.dynamic_memory = true →
        ((∀ m, s.dynamic_memory_min_mb = some m →
           32 ≤ m ∧ m ≤ s.memory_mb) ∧
         (∀ mx, s.dynamic_memory_max_mb = some mx → s.memory_mb ≤ mx) ∧
         (∀ b, s.memory_buffer_percentage = some b → b ≤ 100))) →
      s.generation = Generation.Gen1 → s.secure_boot = true →
      s.validate = Except.error (Error.Validation "secure_boot"
        "Secure Boot is only available for Generation 2 VMs")) := by
  refine ⟨validate_ok_iff s h1 h2 h3, fun hlow => ?_, fun hhigh => ?_,
    fun ha hb hc => ?_, fun ha hb hc => ?_,
    fun m ha hb hc hd hdyn hmin hlt =>
      validate_err_min_low s h1 h2 h3 ha hb hc hd hdyn hmin hlt,
    fun m ha hb hc hd hdyn hmin hgt =>
      validate_err_min_high s h1 h2 h3 ha hb hc hd hdyn hmin hgt,
    fun mx ha hb hc hd hdyn hminok hmax hx =>
      validate_err_max_low s h1 h2 h3 ha hb hc hd hdyn hminok hmax hx,
    fun b ha hb hc hd hdyn hminok hmaxok hbuf hgt => ?_,
    fun m mx ha hb hc hd hdyn hmin hmax hmm => ?_,
    fun ha hb hc hd hdynok hgen hsb => ?_⟩
  · rw [VmSettings.validate, if_neg h1, if_neg (by omega),
      if_neg (by simp [h3]), if_pos hlow]
  · rw [VmSettings.validate, if_neg h1, if_neg (by omega),
      if_neg (by simp [h3]), if_neg (by omega), if_pos hhigh]
  · rw [VmSettings.validate, if_neg h1, if_neg (by omega),
      if_neg (by simp [h3]), if_neg (by omega), if_neg (by omega),
      if_pos hc]
  · rw [VmSettings.validate, if_neg h1, if_neg (by omega),
      if_neg (by simp [h3]), if_neg (by omega), if_neg (by omega),
      if_neg (by omega), if_pos hc]
  · rw [validate_reach_dyn s h1 h2 h3 ha hb hc hd hdyn,
      validate_dyn_min_skip s hminok, validate_dyn_max_skip s hmaxok,
      validate_min_max_skip s hminok hmaxok, VmSettings.validate_buffer,
      hbuf]
    dsimp only
    rw [if_pos hgt]
  · by_cases hm32 : m < 32
    · exact ⟨"dynamic_memory_min_mb",
        "Minimum dynamic memory must be at least 32 MB",
        validate_err_min_low s h1 h2 h3 ha hb hc hd hdyn hmin hm32,
        Or.inl rfl⟩
    · by_cases hmgt : m > s.memory_mb
      · exact ⟨"dynamic_memory_min_mb",
          "Minimum memory cannot exceed startup memory",
          validate_err_min_high s h1 h2 h3 ha hb hc hd hdyn hmin hmgt,
          Or.inl rfl⟩
      · refine ⟨"dynamic_memory_max_mb",
          "Maximum memory cannot be less than startup memory",
          validate_err_max_low s h1 h2 h3 ha hb hc hd hdyn
            (fun m2 hm2 => ?_) hmax (by omega), Or.inr rfl⟩
        rw [hmin] at hm2
        cases hm2
        omega
  · cases hdm : s.dynamic_memory with
    | false =>
      rw [validate_reach_gen1 s h1 h2 h3 ha hb hc hd hdm,
        VmSettings.validate_gen1, if_pos (by simp [hgen, hsb])]
    | true =>
      obtain ⟨hminok, hmaxok, hbufok⟩ := hdynok hdm
      rw [validate_reach_dyn s h1 h2 h3 ha hb hc hd hdm,
        validate_dyn_min_skip s hminok, validate_dyn_max_skip s hmaxok,
        validate_min_max_skip s hminok hmaxok, validate_buffer_skip s hbufok,
        VmSettings.validate_gen1, if_pos (by simp [hgen, hsb])]

/-- A valid Generation-2 settings fixture: 4096 MB, 2 processors, secure
boot on, no dynamic memory. -/
def vm_settings_fixture : VmSettings :=
  { name := "TestVM", generation := Generation.Gen2, memory_mb := 4096
    processor_count := 2, config_path := none, snapshot_path := none
    smart_paging_path := none, dynamic_memory := false
    dynamic_memory_min_mb := none, dynamic_memory_max_mb := none
    memory_buffer_percentage := none, secure_boot := true
    secure_boot_template := none, tpm_enabled := false
    nested_virtualization := false }

/-- C7 witness: the fixture settings pass validation, by the acceptance
characterization. -/
theorem C7_vm_settings_validation_witness :
    vm_settings_fixture.name ≠ "" ∧
    vm_settings_fixture.validate = Except.ok () := by
  refine ⟨by decide, ?_⟩
  apply (C7_vm_settings_validation vm_settings_fixture (by decide) (by decide)
    (by decide)).1.mpr
  refine ⟨by decide, by decide, by decide, by decide, fun hcon => ?_,
    by decide⟩
  exact absurd hcon (by decide)

end HyperVSpec
